import Mathlib

/-!
# Verification of the arcas-onlineeda-mcp core against its specification

This file gives a shallow embedding, in Lean 4, of the core of the
`arcas-onlineeda-mcp` TypeScript server (tool dispatch framework, session
manager, domain operations, verification orchestrator, intent resolver)
and proves/refutes the specification claims about it.

Modelling conventions, used throughout:

* JavaScript exceptions are modelled with `Except`: a function that can
  throw returns `Except JsErr α`.  A thrown `Error` instance carries its
  `.message` (constructor `JsErr.err`); any other thrown value is
  `JsErr.nonErr`.  `ZodError`s (thrown only by `schema.parse`) are
  modelled separately as `Except (List String)` carrying the per-field
  messages.
* Browser / filesystem effects are modelled by explicit environment
  records: one field per call site, giving that call's outcome.  Each
  modelled operation additionally produces a trace (`List Event`) of the
  remote-UI interactions it performed, so that "no navigation happened"
  style properties can be stated.
* JavaScript numbers are modelled as `Int` (every number the claims
  touch is integral, where integer and IEEE-double arithmetic agree);
  `parseInt` returning `NaN` is modelled as `Option Int = none`.  The
  intent resolver's similarity scores `common / max(a, b)` are modelled
  as exact fractions (numerator/denominator pairs of naturals), with
  comparisons done by cross-multiplication; for the small integers
  involved this agrees with the double-precision comparison.
* String primitives (`split` on a single space, `toLowerCase`, `trim`,
  `includes`) are given direct structural implementations over the
  character list, mirroring their JavaScript semantics.
* JavaScript truthiness on strings (`!s`, `a || b`) is modelled by
  `jsTruthy` / `jsOrStr`; on numbers by `jsNumOr`.
* `async`/`await` code between two `await` points runs atomically in the
  JavaScript event loop; the concurrency model for `ensureLoggedIn`
  (claim C10) cuts the code into atomic steps exactly at its `await`
  points.
-/

set_option autoImplicit false
set_option maxRecDepth 20000

namespace ArcasOnlineEda

/-! ## JavaScript-value helpers -/

/-- A thrown JavaScript value: either an `Error` instance with its
`.message`, or some non-`Error` value. -/
inductive JsErr where
  | err (message : String)
  | nonErr
  deriving DecidableEq

/-- Outcome of an awaited JavaScript call that can reject. -/
abbrev JsOutcome (α : Type) := Except JsErr α

/-- Model of `error instanceof Error ? error.message : "Unknown error"`
(the form used in the catch blocks of the tools). -/
def jsErrMessage : JsErr → String
  | .err m => m
  | .nonErr => "Unknown error"

/-- JavaScript truthiness of a `string | undefined` value:
`undefined` and `""` are falsy. -/
def jsTruthy : Option String → Bool
  | none => false
  | some s => !(s == "")

/-- JavaScript `a || b` on `string | undefined` values. -/
def jsOrStr (a b : Option String) : Option String :=
  if jsTruthy a then a else b

/-- JavaScript `a || d` where `a : number | undefined` and `d` is a
number literal (`undefined` and `0` are falsy). -/
def jsNumOr (a : Option Int) (d : Int) : Int :=
  match a with
  | none => d
  | some q => if q == 0 then d else q

/-- JavaScript `s || d` on a `string` known to be present but possibly
empty (the empty string picks the default `d`). -/
def jsStrOr (s d : String) : String :=
  if s == "" then d else s

/-- Does `pat` occur as a prefix of `cs`? -/
def prefixMatch : List Char → List Char → Bool
  | [], _ => true
  | _ :: _, [] => false
  | a :: as, b :: bs => a == b && prefixMatch as bs

/-- Does `pat` occur as a contiguous substring of `cs`? -/
def infixMatch (pat : List Char) : List Char → Bool
  | [] => pat.isEmpty
  | b :: bs => prefixMatch pat (b :: bs) || infixMatch pat bs

/-- JavaScript `String.prototype.includes` (substring containment;
the empty pattern is always contained). -/
def jsIncludes (s sub : String) : Bool :=
  infixMatch sub.data s.data

/-- Split a character list at every occurrence of `sep`, keeping empty
segments (the semantics of JavaScript `split` with a one-character
separator).  Always returns at least one segment. -/
def splitOnChar (sep : Char) : List Char → List (List Char)
  | [] => [[]]
  | c :: rest =>
      match splitOnChar sep rest with
      | [] => [[]]
      | h :: t => if c == sep then [] :: h :: t else (c :: h) :: t

/-- JavaScript `split` of a string on the single-space separator. -/
def jsSplitOnSpace (s : String) : List String :=
  (splitOnChar ' ' s.data).map (fun cs => String.mk cs)

/-- JavaScript `s.toLowerCase()` (ASCII, which covers the corpus and
the keyword tables). -/
def jsToLower (s : String) : String :=
  String.mk (s.data.map Char.toLower)

/-- JavaScript `s.trim()`. -/
def jsTrim (s : String) : String :=
  String.mk (((s.data.dropWhile Char.isWhitespace).reverse.dropWhile
    Char.isWhitespace).reverse)

/-! ## JSON-ish parameter values

The corpus examples and the intent resolver's suggestions carry untyped
JavaScript objects (`params: any`).  They are modelled by a small
JSON-like value type. -/

inductive PVal where
  | s (v : String)
  | n (v : Int)
  | arr (vs : List PVal)
  | obj (fields : List (String × PVal))

/-- Property access `v.k` on an object value (`undefined` is `none`). -/
def PVal.get : PVal → String → Option PVal
  | .obj fields, k => (fields.find? (fun f => f.1 == k)).map (·.2)
  | _, _ => none

/-! ## The Result / Error contract (src/types: `ToolResult`) -/

/-- One violation entry of a `VerificationResult`.
In the TypeScript interface `severity` is an enum, but the extractor can
produce any trimmed string, so it is modelled as `String`;
`location` is optional. -/
structure Violation where
  type : String
  message : String
  location : Option String
  severity : String
  deriving DecidableEq

/-- The four verification statistics.  Each is a JavaScript number
produced by `parseInt`; `none` models `NaN`. -/
structure Statistics where
  totalChecks : Option Int
  passed : Option Int
  failed : Option Int
  warnings : Option Int
  deriving DecidableEq

/-- Model of `VerificationResult` (src/types).  The extractor always supplies the
statistics object, so it is not optional here. -/
structure VerificationResult where
  passed : Bool
  violations : List Violation
  statistics : Statistics
  deriving DecidableEq

/-- One entry of the project list extracted by `listProjects`. -/
structure ProjectInfo where
  id : String
  name : Option String
  type : Option String
  status : Option String

/-- One example of the intent resolver's corpus
(`NaturalLanguageTool.examples`). -/
structure Example where
  query : String
  interpretation : String
  tool : String
  params : PVal

/-- The `data` payloads produced by the five tools' success results.
Each constructor corresponds to one success-result literal of the
source. -/
inductive ToolData where
  | navigateData (action : String) (currentUrl : String)
  | projectCreateData (projectName projectType message : String)
  | projectOpenData (projectId currentUrl : String)
  | projectListData (projects : List ProjectInfo) (count : Nat)
  | projectDeleteData (projectId message : String)
  | uploadData (projectId : String) (fileName : Option String)
      (filePath message : String)
  | verificationData (projectId verificationType : String)
      (results : VerificationResult)
  | nlMatchData (interpretation suggestedTool : String)
      (suggestedParams : PVal) (matchedExample confidence : String)
  | nlProjectData (interpretation suggestedTool : String)
      (suggestedParams : PVal) (examples : List Example)
      (nextSteps : List String)
  | nlVerificationData (interpretation suggestedTool : String)
      (suggestedParams : PVal) (examples : List Example)
      (tips : List String)
  | nlUploadData (interpretation suggestedTool : String)
      (suggestedParams : PVal) (examples : List Example)
      (supportedFormats : List String)
  | nlNavigateData (interpretation suggestedTool : String)
      (suggestedParams : PVal) (availableActions : List String)
  | nlResultsData (interpretation suggestedAction suggestedTool note tip : String)
  | nlHelpData (interpretation overview : String) (exampleQueries : List String)
  | nlFallbackData (interpretation originalQuery : String)
      (exampleQueries : List (String × String))

/-- Model of `ToolResult` (src/types/index.ts lines 1-6): the uniform operation
result contract.  `metadata` is declared in the interface but never set
by any code path. -/
structure ToolResult where
  success : Bool
  data : Option ToolData := none
  error : Option String := none
  metadata : Option PVal := none

/-! ## Remote-UI interaction events (traces) -/

/-- Events recording the remote-UI / filesystem interactions an
operation performed, in order. -/
inductive Event where
  | goto (url : String)
  | waitForSelector (selector : String) (timeoutMs : Option Int)
  | typeText (selector text : String)
  | click (selector : String)
  | selectOption (selector value : String)
  | waitForNavigation
  | waitForTimeout (ms : Int)
  | queryRemote (selector : String)
  | evaluateRemote
  | fsAccess (path : String)
  | uploadLocalFile (path : String)
  deriving DecidableEq

/-! ## Tool dispatch framework (src/tools/base.ts, `validateAndExecute`) -/

/-- The message built in the generic catch branch of
`validateAndExecute`:
`error instanceof Error ? error.message : "Unknown error occurred"`. -/
def caughtMessage : JsErr → String
  | .err m => m
  | .nonErr => "Unknown error occurred"

/-- Model of `AbstractTool.validateAndExecute` (src/tools/base.ts lines 22-46).

`parse` models `this.schema.parse` (throws a `ZodError` carrying the
per-field messages), `exec` models `this.execute` (may throw).  The
logger calls are pure observations and are not modelled. -/
def validateAndExecute {α V : Type} (parse : α → Except (List String) V)
    (exec : V → JsOutcome ToolResult) (params : α) : ToolResult :=
  match parse params with
  | .error zodMessages =>
      { success := false
        error := some ("Invalid parameters: " ++ String.intercalate ", " zodMessages) }
  | .ok validated =>
      match exec validated with
      | .ok result => result
      | .error e => { success := false, error := some (caughtMessage e) }

/-! ## Session manager (src/utils/browser.ts, `BrowserManager`) -/

/-- The part of `SessionState` relevant to the modelled operations:
whether the page handle exists and the `isLoggedIn` flag. -/
structure BMState where
  hasPage : Bool
  isLoggedIn : Bool
  deriving DecidableEq

def loginStatusSelector : String := ".dashboard, .project-list, .user-menu"
def userInputSelector : String := "input[type=\"text\"], input[type=\"email\"]"
def passwordInputSelector : String := "input[type=\"password\"]"
def submitSelector : String := "button[type=\"submit\"]"

/-- Call-site outcomes for one run of `BrowserManager.login`.
`statusBefore`/`statusAfter` are the results of the two
`checkLoginStatus()` calls (that helper catches internally and returns a
`Bool`); the remaining fields are the awaited form interactions, any of
which may reject. -/
structure LoginEnv where
  statusBefore : Bool
  waitLoginForm : JsOutcome Unit
  typeUsername : JsOutcome Unit
  typePassword : JsOutcome Unit
  submitLogin : JsOutcome Unit
  statusAfter : Bool

/-- Model of `BrowserManager.login` (src/utils/browser.ts lines 50-92).

Returns the outcome (`throw` only for the initial "Browser not
initialized" guard; every error inside the `try` is caught and folded to
`false`), the trace of UI interactions, and the updated state.
`envUsername`/`envPassword` model `process.env.ONLINEEDA_USERNAME` /
`ONLINEEDA_PASSWORD`. -/
def login (st : BMState) (username password : Option String)
    (envUsername envPassword : Option String) (env : LoginEnv) :
    JsOutcome Bool × List Event × BMState :=
  if !st.hasPage then
    (.error (.err "Browser not initialized"), [], st)
  else
    -- const loggedIn = await this.checkLoginStatus()
    let tr0 : List Event := [.queryRemote loginStatusSelector]
    if env.statusBefore then
      (.ok true, tr0, { st with isLoggedIn := true })
    else
      -- const user = username || process.env.ONLINEEDA_USERNAME
      -- const pass = password || process.env.ONLINEEDA_PASSWORD
      match jsOrStr username envUsername, jsOrStr password envPassword with
      | some user, some pass =>
        if user == "" || pass == "" then
          -- if (!user || !pass) return false
          (.ok false, tr0, st)
        else
          match env.waitLoginForm with
          | .error _ =>
              (.ok false, tr0 ++ [.waitForSelector userInputSelector (some 5000)], st)
          | .ok _ =>
            let tr1 := tr0 ++ [.waitForSelector userInputSelector (some 5000)]
            match env.typeUsername with
            | .error _ => (.ok false, tr1 ++ [.typeText userInputSelector user], st)
            | .ok _ =>
              let tr2 := tr1 ++ [.typeText userInputSelector user]
              match env.typePassword with
              | .error _ => (.ok false, tr2 ++ [.typeText passwordInputSelector pass], st)
              | .ok _ =>
                let tr3 := tr2 ++ [.typeText passwordInputSelector pass]
                match env.submitLogin with
                | .error _ =>
                    (.ok false, tr3 ++ [.click submitSelector, .waitForNavigation], st)
                | .ok _ =>
                  let tr4 := tr3 ++ [.click submitSelector, .waitForNavigation,
                    .queryRemote loginStatusSelector]
                  -- this.state.isLoggedIn = await this.checkLoginStatus()
                  (.ok env.statusAfter, tr4, { st with isLoggedIn := env.statusAfter })
      | _, _ =>
        -- at least one of user/pass is undefined: return false
        (.ok false, tr0, st)

/-- The error thrown by `AbstractTool.ensureLoggedIn` when the login
attempt reports failure. -/
def loginFailedMessage : String :=
  "Failed to login to OnlineEDA. Please check credentials."

/-- Model of `AbstractTool.ensureLoggedIn` (src/tools/base.ts lines 50-59).
Calls `login()` with no arguments, so only environment credentials can
apply. -/
def ensureLoggedIn (st : BMState) (envUsername envPassword : Option String)
    (env : LoginEnv) : JsOutcome Bool × List Event × BMState :=
  if st.isLoggedIn then (.ok true, [], st)
  else
    match login st none none envUsername envPassword env with
    | (.ok true, tr, st') => (.ok true, tr, st')
    | (.ok false, tr, st') => (.error (.err loginFailedMessage), tr, st')
    | (.error e, tr, st') => (.error e, tr, st')

/-- The session-level inputs shared by every tool run: environment
credentials and the outcomes for the login call sites. -/
structure SessionEnv where
  envUsername : Option String
  envPassword : Option String
  loginEnv : LoginEnv

/-! ## Navigate tool (src/tools/navigate.ts, `NavigateTool`) -/

/-- Schema enum of the navigation actions: home, projects,
new-project, documentation, settings. -/
inductive NavAction where
  | home | projects | newProject | documentation | settings
  deriving DecidableEq

/-- The string form of a navigation action (as it appears in the
returned data). -/
def NavAction.str : NavAction → String
  | .home => "home"
  | .projects => "projects"
  | .newProject => "new-project"
  | .documentation => "documentation"
  | .settings => "settings"

/-- The URL `NavigateTool.execute` navigates to for each action. -/
def navUrl : NavAction → String
  | .home => "https://onlineeda.arcas-da.com/dashboard"
  | .projects => "https://onlineeda.arcas-da.com/projects"
  | .newProject => "https://onlineeda.arcas-da.com/projects/new"
  | .documentation => "https://onlineeda.arcas-da.com/docs"
  | .settings => "https://onlineeda.arcas-da.com/settings"

/-- Validated parameters of the navigate tool. -/
structure NavigateParams where
  action : NavAction
  projectId : Option String

/-- Call-site outcomes for one run of `NavigateTool.execute`. -/
structure NavigateEnv where
  gotoPage : JsOutcome Unit
  stabilize : JsOutcome Unit
  pageUrl : String

/-- Model of `NavigateTool.execute` (src/tools/navigate.ts).  Note that
`ensureLoggedIn` is awaited *before* the `try` block, so its exceptions
propagate out of `execute`. -/
def navigateExecute (st : BMState) (senv : SessionEnv) (env : NavigateEnv)
    (params : NavigateParams) : JsOutcome ToolResult × List Event :=
  match ensureLoggedIn st senv.envUsername senv.envPassword senv.loginEnv with
  | (.error e, tr, _) => (.error e, tr)
  | (.ok _, tr, st') =>
    if !st'.hasPage then
      (.ok { success := false, error := some "Browser page not available" }, tr)
    else
      match env.gotoPage with
      | .error e =>
          (.ok { success := false,
                 error := some ("Navigation failed: " ++ jsErrMessage e) },
           tr ++ [.goto (navUrl params.action)])
      | .ok _ =>
        let tr1 := tr ++ [.goto (navUrl params.action), .waitForTimeout 1000]
        match env.stabilize with
        | .error e =>
            (.ok { success := false,
                   error := some ("Navigation failed: " ++ jsErrMessage e) }, tr1)
        | .ok _ =>
            (.ok { success := true,
                   data := some (.navigateData params.action.str env.pageUrl) }, tr1)

/-! ## Project tool (src/tools/project.ts, `ProjectTool`) -/

/-- Schema enum of the project actions: create, open, list, delete
(`open` is a Lean keyword, hence the `A` suffixes). -/
inductive ProjectAction where
  | createA | openA | listA | deleteA
  deriving DecidableEq

/-- Validated parameters of the project tool.  The name/type presence
checks in the source use JavaScript truthiness, so empty strings count
as missing. -/
structure ProjectParams where
  action : ProjectAction
  projectName : Option String
  projectType : Option String
  projectId : Option String

/-- Call-site outcomes for one run of `ProjectTool.execute` and its four
helpers. -/
structure ProjectEnv where
  createGoto : JsOutcome Unit
  createWaitForm : JsOutcome Unit
  createTypeName : JsOutcome Unit
  createSelectType : JsOutcome Unit
  createSubmit : JsOutcome Unit
  openGoto : JsOutcome Unit
  openPageUrl : String
  listGoto : JsOutcome Unit
  listEvaluate : JsOutcome (List ProjectInfo)
  deleteGoto : JsOutcome Unit
  deleteClick : JsOutcome Unit
  deleteWaitConfirm : JsOutcome Unit
  deleteConfirm : JsOutcome Unit

def newProjectUrl : String := "https://onlineeda.arcas-da.com/projects/new"
def projectNameSelector : String := "input[name=\"projectName\"], #projectName"
def projectTypeSelector : String := "select[name=\"projectType\"], #projectType"
def createProjectButton : String := "button[type=\"submit\"], .create-project-btn"

/-- Model of `ProjectTool.createProject` (src/tools/project.ts lines 84-109). -/
def createProject (env : ProjectEnv) (name ptype : String) :
    JsOutcome ToolResult × List Event :=
  match env.createGoto with
  | .error e => (.error e, [.goto newProjectUrl])
  | .ok _ =>
    match env.createWaitForm with
    | .error e => (.error e, [.goto newProjectUrl, .waitForSelector projectNameSelector none])
    | .ok _ =>
      let tr1 : List Event := [.goto newProjectUrl, .waitForSelector projectNameSelector none]
      match env.createTypeName with
      | .error e => (.error e, tr1 ++ [.typeText projectNameSelector name])
      | .ok _ =>
        let tr2 := tr1 ++ [.typeText projectNameSelector name]
        match env.createSelectType with
        | .error e => (.error e, tr2 ++ [.selectOption projectTypeSelector ptype])
        | .ok _ =>
          let tr3 := tr2 ++ [.selectOption projectTypeSelector ptype]
          match env.createSubmit with
          | .error e => (.error e, tr3 ++ [.click createProjectButton, .waitForNavigation])
          | .ok _ =>
              (.ok { success := true,
                     data := some (.projectCreateData name ptype
                       "Project created successfully") },
               tr3 ++ [.click createProjectButton, .waitForNavigation])

/-- Model of `ProjectTool.openProject` (src/tools/project.ts lines 111-121). -/
def openProject (env : ProjectEnv) (projectId : String) :
    JsOutcome ToolResult × List Event :=
  let url := "https://onlineeda.arcas-da.com/projects/" ++ projectId
  match env.openGoto with
  | .error e => (.error e, [.goto url])
  | .ok _ =>
      (.ok { success := true,
             data := some (.projectOpenData projectId env.openPageUrl) }, [.goto url])

/-- Model of `ProjectTool.listProjects` (src/tools/project.ts lines 123-144). -/
def listProjects (env : ProjectEnv) : JsOutcome ToolResult × List Event :=
  let url := "https://onlineeda.arcas-da.com/projects"
  match env.listGoto with
  | .error e => (.error e, [.goto url])
  | .ok _ =>
    match env.listEvaluate with
    | .error e => (.error e, [.goto url, .evaluateRemote])
    | .ok projects =>
        (.ok { success := true,
               data := some (.projectListData projects projects.length) },
         [.goto url, .evaluateRemote])

def deleteProjectButton : String := ".delete-project-btn, button[data-action=\"delete\"]"
def confirmDeleteSelector : String := ".confirm-delete, .modal-confirm"
def confirmDeleteButton : String := ".confirm-delete, button[data-confirm=\"delete\"]"

/-- Model of `ProjectTool.deleteProject` (src/tools/project.ts lines 146-163). -/
def deleteProject (env : ProjectEnv) (projectId : String) :
    JsOutcome ToolResult × List Event :=
  let url := "https://onlineeda.arcas-da.com/projects/" ++ projectId ++ "/settings"
  match env.deleteGoto with
  | .error e => (.error e, [.goto url])
  | .ok _ =>
    match env.deleteClick with
    | .error e => (.error e, [.goto url, .click deleteProjectButton])
    | .ok _ =>
      let tr1 : List Event := [.goto url, .click deleteProjectButton]
      match env.deleteWaitConfirm with
      | .error e => (.error e, tr1 ++ [.waitForSelector confirmDeleteSelector none])
      | .ok _ =>
        let tr2 := tr1 ++ [.waitForSelector confirmDeleteSelector none]
        match env.deleteConfirm with
        | .error e => (.error e, tr2 ++ [.click confirmDeleteButton])
        | .ok _ =>
            (.ok { success := true,
                   data := some (.projectDeleteData projectId
                     "Project deleted successfully") },
             tr2 ++ [.click confirmDeleteButton])

/-- The `switch` body of `ProjectTool.execute` inside its `try`
(all four helper calls are awaited inside the `try`, so their thrown
errors are caught there). -/
def projectSwitch (env : ProjectEnv) (params : ProjectParams) :
    JsOutcome ToolResult × List Event :=
  match params.action with
  | .createA =>
    if !(jsTruthy params.projectName) || !(jsTruthy params.projectType) then
      (.ok { success := false,
             error := some "Project name and type are required for creating a project" }, [])
    else
      createProject env (params.projectName.getD "") (params.projectType.getD "")
  | .openA =>
    if !(jsTruthy params.projectId) then
      (.ok { success := false,
             error := some "Project ID is required for opening a project" }, [])
    else
      openProject env (params.projectId.getD "")
  | .listA => listProjects env
  | .deleteA =>
    if !(jsTruthy params.projectId) then
      (.ok { success := false,
             error := some "Project ID is required for deleting a project" }, [])
    else
      deleteProject env (params.projectId.getD "")

/-- Model of `ProjectTool.execute` (src/tools/project.ts lines 27-82).  As in
every domain tool, `ensureLoggedIn` is awaited before the `try`. -/
def projectExecute (st : BMState) (senv : SessionEnv) (env : ProjectEnv)
    (params : ProjectParams) : JsOutcome ToolResult × List Event :=
  match ensureLoggedIn st senv.envUsername senv.envPassword senv.loginEnv with
  | (.error e, tr, _) => (.error e, tr)
  | (.ok _, tr, st') =>
    if !st'.hasPage then
      (.ok { success := false, error := some "Browser page not available" }, tr)
    else
      match projectSwitch env params with
      | (.ok r, tr1) => (.ok r, tr ++ tr1)
      | (.error e, tr1) =>
          (.ok { success := false,
                 error := some ("Project operation failed: " ++ jsErrMessage e) },
           tr ++ tr1)

/-! ## Upload tool (src/tools/upload-file.ts, `UploadFileTool`) -/

/-- Validated parameters of the upload tool (`fileType` kept as the raw
enum string). -/
structure UploadFileParams where
  projectId : String
  filePath : String
  fileType : Option String

/-- Call-site outcomes for one run of `UploadFileTool.execute`.
`resolvePath` models `path.resolve` (absolute-path resolution against
the process working directory); `findFileInput` models
the file-input probe `page.$` (`false` = element absent). -/
structure UploadEnv where
  resolvePath : String → String
  fileAccess : JsOutcome Unit
  gotoFilesPage : JsOutcome Unit
  findFileInput : JsOutcome Bool
  doUpload : JsOutcome Unit
  waitUploadDone : JsOutcome Unit

def fileInputSelector : String := "input[type=\"file\"]"
def uploadDoneSelector : String := ".upload-success, .file-uploaded"

/-- Model of `UploadFileTool.execute` (src/tools/upload-file.ts lines 161-212).
The path is resolved and `fs.access` is awaited before the `page.goto`
to the project files page; everything inside the `try` folds thrown
errors into a `File upload failed:` result. -/
def uploadFileExecute (st : BMState) (senv : SessionEnv) (env : UploadEnv)
    (params : UploadFileParams) : JsOutcome ToolResult × List Event :=
  match ensureLoggedIn st senv.envUsername senv.envPassword senv.loginEnv with
  | (.error e, tr, _) => (.error e, tr)
  | (.ok _, tr, st') =>
    if !st'.hasPage then
      (.ok { success := false, error := some "Browser page not available" }, tr)
    else
      let absolutePath := env.resolvePath params.filePath
      let filesUrl := "https://onlineeda.arcas-da.com/projects/" ++ params.projectId ++ "/files"
      match env.fileAccess with
      | .error e =>
          (.ok { success := false,
                 error := some ("File upload failed: " ++ jsErrMessage e) },
           tr ++ [.fsAccess absolutePath])
      | .ok _ =>
        let tr1 := tr ++ [.fsAccess absolutePath]
        match env.gotoFilesPage with
        | .error e =>
            (.ok { success := false,
                   error := some ("File upload failed: " ++ jsErrMessage e) },
             tr1 ++ [.goto filesUrl])
        | .ok _ =>
          let tr2 := tr1 ++ [.goto filesUrl]
          match env.findFileInput with
          | .error e =>
              (.ok { success := false,
                     error := some ("File upload failed: " ++ jsErrMessage e) },
               tr2 ++ [.queryRemote fileInputSelector])
          | .ok false =>
              (.ok { success := false,
                     error := some "File upload input not found on page" },
               tr2 ++ [.queryRemote fileInputSelector])
          | .ok true =>
            let tr3 := tr2 ++ [.queryRemote fileInputSelector]
            match env.doUpload with
            | .error e =>
                (.ok { success := false,
                       error := some ("File upload failed: " ++ jsErrMessage e) },
                 tr3 ++ [.uploadLocalFile absolutePath])
            | .ok _ =>
              let tr4 := tr3 ++ [.uploadLocalFile absolutePath]
              match env.waitUploadDone with
              | .error e =>
                  (.ok { success := false,
                         error := some ("File upload failed: " ++ jsErrMessage e) },
                   tr4 ++ [.waitForSelector uploadDoneSelector (some 30000)])
              | .ok _ =>
                  (.ok { success := true,
                         data := some (.uploadData params.projectId
                           ((absolutePath.splitOn "/").getLast?)
                           params.filePath "File uploaded successfully") },
                   tr4 ++ [.waitForSelector uploadDoneSelector (some 30000)])

/-! ## `parseInt` and verification-result extraction
(src/tools/run-verification.ts, `extractVerificationResults`) -/

/-- Value of a digit run, most significant first. -/
def digitsToNat (cs : List Char) : Nat :=
  cs.foldl (fun acc c => acc * 10 + (c.toNat - '0'.toNat)) 0

/-- JavaScript `parseInt(s)` (decimal): skip leading whitespace, read an
optional sign, then the longest prefix of decimal digits; no digits
means `NaN`, modelled as `none`.  (The automatic radix-16 mode for
`0x`-prefixed strings is not modelled; no statement below depends on
such inputs.) -/
def jsParseInt (s : String) : Option Int :=
  let cs := s.data.dropWhile (·.isWhitespace)
  match cs with
  | '-' :: t =>
      let ds := t.takeWhile (·.isDigit)
      if ds.isEmpty then none else some (-(digitsToNat ds : Int))
  | '+' :: t =>
      let ds := t.takeWhile (·.isDigit)
      if ds.isEmpty then none else some (digitsToNat ds : Int)
  | t =>
      let ds := t.takeWhile (·.isDigit)
      if ds.isEmpty then none else some (digitsToNat ds : Int)

/-- One `.violation-item, .error-item` element as the extractor sees it:
each field is the `textContent` of the corresponding child element,
`none` when the child is missing or its text is `null`. -/
structure RawViolationEl where
  type : Option String
  message : Option String
  location : Option String
  severity : Option String

/-- The page state read by `extractVerificationResults`'s
`page.evaluate`: presence of the pass indicator
(`.verification-passed, .status-passed`), the violation elements, and
the `textContent` of the four statistics markers (`none` = marker
missing or text `null`). -/
structure PageDom where
  passIndicator : Bool
  violationEls : List RawViolationEl
  totalChecksText : Option String
  checksPassedText : Option String
  checksFailedText : Option String
  warningsText : Option String

/-- The per-violation mapping inside `extractVerificationResults`:
`textContent?.trim() || default` for type/message/severity,
`textContent?.trim()` (possibly `undefined`) for location. -/
def extractViolation (el : RawViolationEl) : Violation :=
  { type := jsStrOr (((el.type).map jsTrim).getD "") "unknown"
    message := ((el.message).map jsTrim).getD ""
    location := (el.location).map jsTrim
    severity := jsStrOr (((el.severity).map jsTrim).getD "") "error" }

/-- One statistic: `parseInt(element?.textContent || "0")`. -/
def statOf (txt : Option String) : Option Int :=
  jsParseInt (jsStrOr (txt.getD "") "0")

/-- Model of `RunVerificationTool.extractVerificationResults`
(src/tools/run-verification.ts lines 563-590). -/
def extractVerificationResults (dom : PageDom) : VerificationResult :=
  { passed := dom.passIndicator
    violations := dom.violationEls.map extractViolation
    statistics :=
      { totalChecks := statOf dom.totalChecksText
        passed := statOf dom.checksPassedText
        failed := statOf dom.checksFailedText
        warnings := statOf dom.warningsText } }

/-! ## Run-verification tool (src/tools/run-verification.ts,
`RunVerificationTool.execute`) -/

/-- Schema enum of the verification types: formal, equivalence,
power, security, fpga. -/
inductive VerificationType where
  | formal | equivalence | power | security | fpga
  deriving DecidableEq

def VerificationType.str : VerificationType → String
  | .formal => "formal"
  | .equivalence => "equivalence"
  | .power => "power"
  | .security => "security"
  | .fpga => "fpga"

/-- The optional options object of the run-verification tool
(`z.number()` values modelled as `Int`). -/
structure VerificationOptions where
  timeout : Option Int
  depth : Option Int
  properties : Option (List String)

/-- Validated parameters of the run-verification tool. -/
structure RunVerificationParams where
  projectId : String
  verificationType : VerificationType
  options : Option VerificationOptions

/-- JavaScript truthiness of a `number | undefined`
(`undefined` and `0` are falsy). -/
def jsNumTruthy : Option Int → Bool
  | none => false
  | some q => !(q == 0)

/-- Model of `page.waitForSelector(sel, { timeout })`, given the instant (in ms
from the wait's start) at which the awaited element appears, `none` if
it never does: resolves iff the element appears within the timeout,
otherwise rejects with a puppeteer `TimeoutError`. -/
def waitForSelectorTimed (appearsAtMs : Option Int) (timeoutMs : Int) : JsOutcome Unit :=
  match appearsAtMs with
  | some t => if t ≤ timeoutMs then .ok () else
      .error (.err "TimeoutError: waiting for selector failed")
  | none => .error (.err "TimeoutError: waiting for selector failed")

/-- Call-site outcomes for one run of `RunVerificationTool.execute`.
`runningAppearsAtMs` / `completeAppearsAtMs` give when the
`.verification-running` / `.verification-complete` indicators appear
(`none` = never); `dom` is the page state at extraction time. -/
structure RunVerificationEnv where
  gotoVerifyPage : JsOutcome Unit
  selectType : JsOutcome Unit
  typeTimeoutField : JsOutcome Unit
  typeDepthField : JsOutcome Unit
  clickRun : JsOutcome Unit
  runningAppearsAtMs : Option Int
  completeAppearsAtMs : Option Int
  evaluateResults : JsOutcome Unit
  dom : PageDom

def verificationTypeSelector : String := "select[name=\"verificationType\"], #verificationType"
def timeoutInputSelector : String := "input[name=\"timeout\"], #timeout"
def depthInputSelector : String := "input[name=\"depth\"], #depth"
def runButtonSelector : String := "button.run-verification, button[type=\"submit\"]"
def runningIndicatorSelector : String := ".verification-running, .progress-indicator"
def completeIndicatorSelector : String := ".verification-complete, .results-ready"

/-- The verification failure result built in the `catch` block of
`RunVerificationTool.execute`. -/
def verificationFailure (e : JsErr) : ToolResult :=
  { success := false, error := some ("Verification failed: " ++ jsErrMessage e) }

/-- The millisecond bound passed to the completion wait:
`(params.options?.timeout || 300) * 1000`. -/
def completeTimeoutMs (options : Option VerificationOptions) : Int :=
  (jsNumOr (options.bind (·.timeout)) 300) * 1000

/-- The option-configuration segment of `RunVerificationTool.execute`
(`if (params.options) { if (params.options.timeout) ... type;
if (params.options.depth) ... type }`). -/
def configureOptions (env : RunVerificationEnv) (options : Option VerificationOptions) :
    JsOutcome Unit × List Event :=
  match options with
  | none => (.ok (), [])
  | some o =>
    if jsNumTruthy o.timeout then
      match env.typeTimeoutField with
      | .error e => (.error e, [.typeText timeoutInputSelector (toString (o.timeout.getD 0))])
      | .ok _ =>
        let tr1 : List Event := [.typeText timeoutInputSelector (toString (o.timeout.getD 0))]
        if jsNumTruthy o.depth then
          match env.typeDepthField with
          | .error e => (.error e, tr1 ++ [.typeText depthInputSelector (toString (o.depth.getD 0))])
          | .ok _ => (.ok (), tr1 ++ [.typeText depthInputSelector (toString (o.depth.getD 0))])
        else (.ok (), tr1)
    else
      if jsNumTruthy o.depth then
        match env.typeDepthField with
        | .error e => (.error e, [.typeText depthInputSelector (toString (o.depth.getD 0))])
        | .ok _ => (.ok (), [.typeText depthInputSelector (toString (o.depth.getD 0))])
      else (.ok (), [])

/-- Model of `RunVerificationTool.execute` (src/tools/run-verification.ts lines
503-561): navigate to the verify page, select the type, configure
options, trigger the run (`Promise.all` of the click and a 5000 ms wait
for the running indicator), wait for completion bounded by
`(options?.timeout || 300) * 1000` ms, then extract results.  Every
rejection inside the `try` is folded into `verificationFailure`. -/
def runVerificationExecute (st : BMState) (senv : SessionEnv)
    (env : RunVerificationEnv) (params : RunVerificationParams) :
    JsOutcome ToolResult × List Event :=
  match ensureLoggedIn st senv.envUsername senv.envPassword senv.loginEnv with
  | (.error e, tr, _) => (.error e, tr)
  | (.ok _, tr, st') =>
    if !st'.hasPage then
      (.ok { success := false, error := some "Browser page not available" }, tr)
    else
      let verifyUrl := "https://onlineeda.arcas-da.com/projects/" ++ params.projectId ++ "/verify"
      match env.gotoVerifyPage with
      | .error e => (.ok (verificationFailure e), tr ++ [.goto verifyUrl])
      | .ok _ =>
        let tr1 := tr ++ [.goto verifyUrl]
        match env.selectType with
        | .error e =>
            (.ok (verificationFailure e),
             tr1 ++ [.selectOption verificationTypeSelector params.verificationType.str])
        | .ok _ =>
          let tr2 := tr1 ++ [.selectOption verificationTypeSelector params.verificationType.str]
          match configureOptions env params.options with
          | (.error e, trc) => (.ok (verificationFailure e), tr2 ++ trc)
          | (.ok _, trc) =>
            let tr3 := tr2 ++ trc ++ [.click runButtonSelector,
              .waitForSelector runningIndicatorSelector (some 5000)]
            match env.clickRun with
            | .error e => (.ok (verificationFailure e), tr3)
            | .ok _ =>
              match waitForSelectorTimed env.runningAppearsAtMs 5000 with
              | .error e => (.ok (verificationFailure e), tr3)
              | .ok _ =>
                let tr4 := tr3 ++ [.waitForSelector completeIndicatorSelector
                  (some (completeTimeoutMs params.options))]
                match waitForSelectorTimed env.completeAppearsAtMs
                    (completeTimeoutMs params.options) with
                | .error e => (.ok (verificationFailure e), tr4)
                | .ok _ =>
                  let tr5 := tr4 ++ [.evaluateRemote]
                  match env.evaluateResults with
                  | .error e => (.ok (verificationFailure e), tr5)
                  | .ok _ =>
                      (.ok { success := true,
                             data := some (.verificationData params.projectId
                               params.verificationType.str
                               (extractVerificationResults env.dom)) }, tr5)

/-! ## Intent resolver (src/tools/natural-language.ts,
`NaturalLanguageTool`) -/

/-- The fixed example corpus (`NaturalLanguageTool.examples`,
src/tools/natural-language.ts lines 23-129), in source order. -/
def examples : List Example :=
  [{ query := "I want to create a new formal verification project for my CPU design"
     interpretation := "Create formal verification project"
     tool := "arcas_onlineeda_project"
     params := .obj [("action", .s "create"), ("projectType", .s "formal"),
       ("projectName", .s "cpu_formal_verification")] },
   { query := "Let\x27s start a power analysis project for the GPU controller"
     interpretation := "Create power analysis project"
     tool := "arcas_onlineeda_project"
     params := .obj [("action", .s "create"), ("projectType", .s "power"),
       ("projectName", .s "gpu_controller_power")] },
   { query := "Set up equivalence checking between RTL and gate-level netlist"
     interpretation := "Create equivalence checking project"
     tool := "arcas_onlineeda_project"
     params := .obj [("action", .s "create"), ("projectType", .s "equivalence"),
       ("projectName", .s "rtl_gate_equivalence")] },
   { query := "Check if my RISC-V core meets all safety properties"
     interpretation := "Run formal verification with safety properties"
     tool := "arcas_onlineeda_run_verification"
     params := .obj [("verificationType", .s "formal"),
       ("options", .obj [("properties", .arr [.s "safety"]), ("depth", .n 20)])] },
   { query := "Verify that the optimized design is functionally equivalent to the original"
     interpretation := "Run equivalence verification"
     tool := "arcas_onlineeda_run_verification"
     params := .obj [("verificationType", .s "equivalence")] },
   { query := "Analyze power consumption during different operating modes"
     interpretation := "Run power analysis verification"
     tool := "arcas_onlineeda_run_verification"
     params := .obj [("verificationType", .s "power"),
       ("options", .obj [("timeout", .n 600)])] },
   { query := "Find security vulnerabilities in my crypto module"
     interpretation := "Run security verification"
     tool := "arcas_onlineeda_run_verification"
     params := .obj [("verificationType", .s "security"),
       ("options", .obj [("properties",
         .arr [.s "information_leakage", .s "timing_attacks"])])] },
   { query := "Upload my Verilog files for the memory controller"
     interpretation := "Upload Verilog design files"
     tool := "arcas_onlineeda_upload_file"
     params := .obj [("fileType", .s "verilog")] },
   { query := "Add the SystemVerilog testbench to the project"
     interpretation := "Upload SystemVerilog testbench"
     tool := "arcas_onlineeda_upload_file"
     params := .obj [("fileType", .s "systemverilog")] },
   { query := "Import SDC timing constraints"
     interpretation := "Upload constraint files"
     tool := "arcas_onlineeda_upload_file"
     params := .obj [("fileType", .s "constraints")] },
   { query := "Show me all my verification projects"
     interpretation := "Navigate to projects list"
     tool := "arcas_onlineeda_navigate"
     params := .obj [("action", .s "projects")] },
   { query := "Go to the documentation"
     interpretation := "Navigate to documentation"
     tool := "arcas_onlineeda_navigate"
     params := .obj [("action", .s "documentation")] },
   { query := "I need to verify my AES encryption module meets FIPS standards"
     interpretation := "Security verification workflow for cryptographic module"
     tool := "workflow"
     params := .obj [("steps", .arr
       [.obj [("tool", .s "arcas_onlineeda_project"),
          ("params", .obj [("action", .s "create"), ("projectType", .s "security"),
            ("projectName", .s "aes_fips_verification")])],
        .obj [("tool", .s "arcas_onlineeda_upload_file"),
          ("params", .obj [("fileType", .s "verilog")])],
        .obj [("tool", .s "arcas_onlineeda_run_verification"),
          ("params", .obj [("verificationType", .s "security"),
            ("options", .obj [("properties", .arr [.s "fips_compliance"])])])]])] },
   { query := "Compare power consumption before and after optimization"
     interpretation := "Power comparison workflow"
     tool := "workflow"
     params := .obj [("steps", .arr
       [.obj [("tool", .s "arcas_onlineeda_project"),
          ("params", .obj [("action", .s "create"), ("projectType", .s "power"),
            ("projectName", .s "optimization_comparison")])],
        .obj [("tool", .s "arcas_onlineeda_upload_file"),
          ("params", .obj [("fileType", .s "verilog"),
            ("note", .s "Upload both versions")])],
        .obj [("tool", .s "arcas_onlineeda_run_verification"),
          ("params", .obj [("verificationType", .s "power")])]])] }]

/-- The similarity score `findBestExample` assigns to one example, as
an exact fraction (numerator `commonWords`, denominator
`max(words.length, exampleWords.length)`): the query — already
lowercased by `execute` — is split on single spaces, and its words are
counted **with multiplicity** against membership in the example's word
list. -/
def scorePair (query : String) (ex : Example) : ℕ × ℕ :=
  let words := jsSplitOnSpace query
  let exampleWords := jsSplitOnSpace (jsToLower ex.query)
  ((words.filter (fun word => exampleWords.contains word)).length,
   max words.length exampleWords.length)

/-- Comparison of exact fraction scores by cross-multiplication
(denominators are positive: a JavaScript `split` is never empty). -/
def fracLt (p q : ℕ × ℕ) : Prop :=
  p.1 * q.2 < q.1 * p.2

instance (p q : ℕ × ℕ) : Decidable (fracLt p q) := by
  unfold fracLt
  infer_instance

/-- Model of `NaturalLanguageTool.findBestExample`
(src/tools/natural-language.ts lines 197-215): keep the first example
whose score strictly exceeds both the running best score and `0.5`
(`= 1/2`). -/
def findBestExample (corpus : List Example) (query : String) : Option Example :=
  (corpus.foldl
    (fun best ex =>
      if fracLt best.2 (scorePair query ex) ∧ fracLt (1, 2) (scorePair query ex) then
        (some ex, scorePair query ex)
      else best)
    ((none : Option Example), ((0, 1) : ℕ × ℕ))).1

/-- The score of one example as a rational number
(`commonWords / max(...)`). -/
def codeScore (query : String) (ex : Example) : ℚ :=
  ((scorePair query ex).1 : ℚ) / ((scorePair query ex).2 : ℚ)

/-- One step of `findBestExample`'s loop, abstracted over the score
function. -/
def bestStep (f : Example → ℕ × ℕ) (acc : Option Example × ℕ × ℕ) (ex : Example) :
    Option Example × ℕ × ℕ :=
  if fracLt acc.2 (f ex) ∧ fracLt (1, 2) (f ex) then (some ex, f ex) else acc

/-- Split a character list at every character satisfying `p`, keeping
empty segments.  Always returns at least one segment. -/
def splitOnPred (p : Char → Bool) : List Char → List (List Char)
  | [] => [[]]
  | c :: rest =>
      match splitOnPred p rest with
      | [] => [[]]
      | h :: t => if p c then [] :: h :: t else (c :: h) :: t

/-- Modelled from the claim's words (C4), for comparison with
`scorePair`: the lowercase whitespace-token **set** of a string
(split at any whitespace, duplicates removed). -/
def specTokenSet (s : String) : List String :=
  ((splitOnPred Char.isWhitespace ((jsToLower s).data)).map
    (fun cs => String.mk cs)).dedup

/-- Modelled from the claim's words (C4): score = |intersection of the
two token sets| / max(|query token set|, |example token set|), as an
exact fraction. -/
def specScorePair (query exampleQuery : String) : ℕ × ℕ :=
  let qs := specTokenSet query
  let es := specTokenSet exampleQuery
  ((qs.filter (fun w => es.contains w)).length, max qs.length es.length)

/-- The set-based score the claim describes, as a rational number. -/
def specScore (query exampleQuery : String) : ℚ :=
  ((specScorePair query exampleQuery).1 : ℚ) /
    ((specScorePair query exampleQuery).2 : ℚ)

/-- Stage A as the claim states it: set-based scores, highest wins,
first example on ties, accepted only when the score exceeds `0.5`. -/
def findBestExampleSpec (corpus : List Example) (query : String) : Option Example :=
  match corpus.foldl
    (fun acc ex =>
      match acc with
      | none => some (ex, specScorePair query ex.query)
      | some best =>
          if fracLt best.2 (specScorePair query ex.query) then
            some (ex, specScorePair query ex.query)
          else acc)
    (none : Option (Example × ℕ × ℕ)) with
  | some best => if fracLt (1, 2) best.2 then some best.1 else none
  | none => none

/-- Keyword test `keywords.some(k => query.includes(k))`. -/
def containsAny (query : String) (keywords : List String) : Bool :=
  keywords.any (fun k => jsIncludes query k)

/-- Model of `NaturalLanguageTool.isProjectCreation` (lines 217-221). -/
def isProjectCreation (query : String) : Bool :=
  containsAny query ["create", "new", "start", "setup", "initialize", "begin"] &&
  containsAny query ["project", "verification", "analysis"]

/-- Model of `NaturalLanguageTool.isVerification` (lines 223-227). -/
def isVerification (query : String) : Bool :=
  containsAny query ["verify", "check", "analyze", "test", "validate", "run", "execute"] ||
  containsAny query ["formal", "equivalence", "power", "security", "fpga"]

/-- Model of `NaturalLanguageTool.isFileOperation` (lines 229-232). -/
def isFileOperation (query : String) : Bool :=
  containsAny query ["upload", "add", "import", "load", "file", "design"]

/-- Model of `NaturalLanguageTool.isNavigation` (lines 234-238). -/
def isNavigation (query : String) : Bool :=
  containsAny query ["go", "navigate", "show", "view", "open", "list"] ||
  containsAny query ["home", "projects", "documentation", "settings"]

/-- Model of `NaturalLanguageTool.isResultsQuery` (lines 240-243). -/
def isResultsQuery (query : String) : Bool :=
  containsAny query ["result", "report", "output", "findings", "status"]

/-- Model of `NaturalLanguageTool.isHelpQuery` (lines 245-248). -/
def isHelpQuery (query : String) : Bool :=
  containsAny query ["help", "how", "what", "explain", "guide", "tutorial"]

/-- First matching row of an ordered keyword table, with a fixed
default (the `for ... break` loops of the suggestion helpers). -/
def detectFromTable (query : String) (table : List (String × List String))
    (dflt : String) : String :=
  match table.find? (fun entry => containsAny query entry.2) with
  | some entry => entry.1
  | none => dflt

/-- Model of the `e.params.action === "create"` style test on a
`PVal` object. -/
def paramIsStr (v : Option PVal) (s : String) : Bool :=
  match v with
  | some (.s t) => t == s
  | _ => false

/-- The keyword table of `suggestProjectCreation`. -/
def projectTypeTable : List (String × List String) :=
  [("formal", ["formal", "property", "assertion", "correctness", "safety"]),
   ("equivalence", ["equivalence", "equivalent", "compare", "match", "same"]),
   ("power", ["power", "energy", "consumption", "optimization", "low-power"]),
   ("security", ["security", "secure", "vulnerability", "crypto", "attack"]),
   ("fpga", ["fpga", "synthesis", "implementation", "xilinx", "altera"])]

/-- Model of `NaturalLanguageTool.suggestProjectCreation` (lines 250-285). -/
def suggestProjectCreation (query : String) : ToolResult :=
  let detectedType := detectFromTable query projectTypeTable "formal"
  { success := true
    data := some (.nlProjectData "Create a new project" "arcas_onlineeda_project"
      (.obj [("action", .s "create"), ("projectType", .s detectedType),
        ("projectName", .s "Suggested: Extract from your requirements")])
      (examples.filter (fun e => e.tool == "arcas_onlineeda_project" &&
        paramIsStr (e.params.get "action") "create"))
      ["After creating project, upload design files",
       "Configure verification settings", "Run verification"]) }

/-- The keyword table of `suggestVerification`. -/
def verificationTypeTable : List (String × List String) :=
  [("formal", ["formal", "property", "assertion", "prove", "theorem"]),
   ("equivalence", ["equivalence", "equivalent", "compare", "netlist", "rtl"]),
   ("power", ["power", "energy", "consumption", "watts", "dynamic"]),
   ("security", ["security", "secure", "vulnerability", "attack", "leak"]),
   ("fpga", ["fpga", "synthesis", "implementation", "timing", "resource"])]

/-- Model of `NaturalLanguageTool.suggestVerification` (lines 287-321). -/
def suggestVerification (query : String) : ToolResult :=
  let detectedType := detectFromTable query verificationTypeTable "formal"
  { success := true
    data := some (.nlVerificationData "Run verification"
      "arcas_onlineeda_run_verification"
      (.obj [("verificationType", .s detectedType),
        ("projectId", .s "Required: Use current project ID")])
      (examples.filter (fun e => e.tool == "arcas_onlineeda_run_verification"))
      ["Ensure all design files are uploaded",
       "Check project status before running verification",
       "Review verification options for specific requirements"]) }

/-- The keyword table of `suggestFileUpload`. -/
def fileTypeTable : List (String × List String) :=
  [("verilog", ["verilog", ".v", "rtl"]),
   ("systemverilog", ["systemverilog", ".sv", "testbench"]),
   ("vhdl", ["vhdl", ".vhd"]),
   ("constraints", ["constraint", "sdc", "xdc", "timing"])]

/-- Model of `NaturalLanguageTool.suggestFileUpload` (lines 323-358). -/
def suggestFileUpload (query : String) : ToolResult :=
  let detectedType := detectFromTable query fileTypeTable "verilog"
  { success := true
    data := some (.nlUploadData "Upload design files" "arcas_onlineeda_upload_file"
      (.obj [("projectId", .s "Required: Use current project ID"),
        ("filePath", .s "Required: Path to your design file"),
        ("fileType", .s detectedType)])
      (examples.filter (fun e => e.tool == "arcas_onlineeda_upload_file"))
      ["Verilog (.v)", "SystemVerilog (.sv)", "VHDL (.vhd, .vhdl)",
       "Constraint files (.sdc, .xdc)"]) }

/-- The keyword table of `suggestNavigation`. -/
def navigationTable : List (String × List String) :=
  [("home", ["home", "dashboard", "main"]),
   ("projects", ["projects", "list", "all"]),
   ("new-project", ["new", "create"]),
   ("documentation", ["docs", "documentation", "help", "guide"]),
   ("settings", ["settings", "config", "preferences"])]

/-- Model of `NaturalLanguageTool.suggestNavigation` (lines 360-388). -/
def suggestNavigation (query : String) : ToolResult :=
  let detectedAction := detectFromTable query navigationTable "home"
  { success := true
    data := some (.nlNavigateData "Navigate to platform section"
      "arcas_onlineeda_navigate" (.obj [("action", .s detectedAction)])
      ["home", "projects", "new-project", "documentation", "settings"]) }

/-- Model of `NaturalLanguageTool.suggestGetResults` (lines 390-403). -/
def suggestGetResults (projectId : Option String) : ToolResult :=
  { success := true
    data := some (.nlResultsData "Get verification results"
      (match projectId with
       | some pid => "Navigate to project " ++ pid ++ " results page"
       | none => "First select a project, then navigate to its results")
      "arcas_onlineeda_navigate"
      "Results are typically shown after running verification"
      "You can also use the arcas://verification-results resource") }

/-- Model of `NaturalLanguageTool.provideEnhancedHelp` (lines 405-448); the large
static payload is represented by its headline fields and the computed
example sample. -/
def provideEnhancedHelp : ToolResult :=
  { success := true
    data := some (.nlHelpData "Help requested"
      "Arcas OnlineEDA is a comprehensive web-based EDA platform"
      ((examples.take 5).map (·.query))) }

/-- Model of `NaturalLanguageTool.provideFallbackWithExamples` (lines 450-473);
note it receives the *original* (non-lowercased) query. -/
def provideFallbackWithExamples (query : String) : ToolResult :=
  { success := true
    data := some (.nlFallbackData "Query understood but needs clarification" query
      ((examples.take 10).map (fun e => (e.query, e.interpretation)))) }

/-- The optional context object of the natural-language tool's schema. -/
structure NLContext where
  currentProject : Option String
  previousResults : Option PVal

/-- The natural-language tool's validated parameters. -/
structure NLQueryParams where
  query : String
  context : Option NLContext

/-- The decision chain of `NaturalLanguageTool.execute`, after the
query has been lowercased (`query = params.query.toLowerCase()`):
Stage A (corpus similarity), then the ordered category predicates, then
the fallback (which receives the original query). -/
def nlRespond (originalQuery query : String) (currentProject : Option String) :
    ToolResult :=
  match findBestExample examples query with
  | some exactMatch =>
      { success := true
        data := some (.nlMatchData exactMatch.interpretation exactMatch.tool
          exactMatch.params exactMatch.query "high") }
  | none =>
      if isProjectCreation query then suggestProjectCreation query
      else if isVerification query then suggestVerification query
      else if isFileOperation query then suggestFileUpload query
      else if isNavigation query then suggestNavigation query
      else if isResultsQuery query then suggestGetResults currentProject
      else if isHelpQuery query then provideEnhancedHelp
      else provideFallbackWithExamples originalQuery

/-- Model of `NaturalLanguageTool.execute` (src/tools/natural-language.ts lines
143-195).  The body is pure, so its `try`/`catch` never fires; it
always resolves, and produces no remote-UI events. -/
def nlExecute (params : NLQueryParams) : JsOutcome ToolResult × List Event :=
  (.ok (nlRespond params.query (jsToLower params.query)
    (params.context.bind (·.currentProject))), [])

/-- The suggested tool of an intent-resolution result, when one is
present. -/
def suggestedToolOf (r : JsOutcome ToolResult × List Event) : Option String :=
  match r.1 with
  | .ok res =>
    match res.data with
    | some (.nlMatchData _ t _ _ _) => some t
    | some (.nlProjectData _ t _ _ _) => some t
    | some (.nlVerificationData _ t _ _ _) => some t
    | some (.nlUploadData _ t _ _ _) => some t
    | some (.nlNavigateData _ t _ _) => some t
    | some (.nlResultsData _ _ t _ _) => some t
    | _ => none
  | .error _ => none

/-- The suggested parameters of an intent-resolution result. -/
def suggestedParamsOf (r : JsOutcome ToolResult × List Event) : Option PVal :=
  match r.1 with
  | .ok res =>
    match res.data with
    | some (.nlMatchData _ _ p _ _) => some p
    | some (.nlProjectData _ _ p _ _) => some p
    | some (.nlVerificationData _ _ p _ _) => some p
    | some (.nlUploadData _ _ p _ _) => some p
    | some (.nlNavigateData _ _ p _) => some p
    | _ => none
  | .error _ => none

/-! ## Interleaving model of concurrent `ensureLoggedIn` calls (C10)

JavaScript is single-threaded: code between two `await` points runs
atomically.  `ensureLoggedIn` has the shape

```
if (!this.browserManager.isLoggedIn()) {        // synchronous
  const loginSuccess = await this.browserManager.login();   // awaits
  if (!loginSuccess) throw ...
}
```

and `login()` suspends at its own awaits (`checkLoginStatus`, the form
interactions, the final `checkLoginStatus`).  Neither function contains
any in-flight guard, lock, or shared promise.  The model below cuts one
caller's run into the two atomic sections relevant to attempt counting:

* `checking` — the synchronous prefix: read `isLoggedIn`; when `false`,
  call into `login()` up to its first `await` (this is the moment a
  login attempt *starts*, counted by `attemptsStarted`);
* `loggingIn` — the rest of `login()` (its further awaits are grouped
  into one step, which cannot change how many attempts start), ending
  with `isLoggedIn := outcome`, which `ensureLoggedIn` then reports. -/

inductive CallerPhase where
  | checking
  | loggingIn
  | doneCall (result : Bool)
  deriving DecidableEq

/-- Shared session flag, number of `login()` calls started so far, and
each caller's position. -/
structure ConcState where
  isLoggedIn : Bool
  attemptsStarted : Nat
  phaseA : CallerPhase
  phaseB : CallerPhase
  deriving DecidableEq

def getPhase (s : ConcState) (second : Bool) : CallerPhase :=
  if second then s.phaseB else s.phaseA

def setPhase (s : ConcState) (second : Bool) (p : CallerPhase) : ConcState :=
  if second then { s with phaseB := p } else { s with phaseA := p }

/-- One atomic step of caller `second` (`false` = first caller,
`true` = second).  `loginOutcome` is the result the platform gives a
completed login attempt. -/
def concStep (loginOutcome : Bool) (s : ConcState) (second : Bool) : ConcState :=
  match getPhase s second with
  | .checking =>
      if s.isLoggedIn then setPhase s second (.doneCall true)
      else { setPhase s second .loggingIn with attemptsStarted := s.attemptsStarted + 1 }
  | .loggingIn =>
      { setPhase s second (.doneCall loginOutcome) with isLoggedIn := loginOutcome }
  | .doneCall _ => s

/-- Run the two callers under an explicit schedule (the list of which
caller takes the next atomic step). -/
def runSched (loginOutcome : Bool) (sched : List Bool) (s : ConcState) : ConcState :=
  sched.foldl (concStep loginOutcome) s

/-- Both callers invoke `ensureLoggedIn` while the session is
unauthenticated. -/
def concInit : ConcState :=
  { isLoggedIn := false, attemptsStarted := 0
    phaseA := .checking, phaseB := .checking }

/-- Number of callers still in their initial `checking` section. -/
def checkingCount (s : ConcState) : Nat :=
  (if s.phaseA = .checking then 1 else 0) + (if s.phaseB = .checking then 1 else 0)

/-! ## Tool assembly: `validateAndExecute` over each tool's `execute` -/

/-- The navigate tool as dispatched: schema validation then
`NavigateTool.execute`. -/
def navigateTool {α : Type} (parse : α → Except (List String) NavigateParams)
    (st : BMState) (senv : SessionEnv) (env : NavigateEnv) (raw : α) : ToolResult :=
  validateAndExecute parse (fun p => (navigateExecute st senv env p).1) raw

/-- The project tool as dispatched. -/
def projectTool {α : Type} (parse : α → Except (List String) ProjectParams)
    (st : BMState) (senv : SessionEnv) (env : ProjectEnv) (raw : α) : ToolResult :=
  validateAndExecute parse (fun p => (projectExecute st senv env p).1) raw

/-- The upload tool as dispatched. -/
def uploadFileTool {α : Type} (parse : α → Except (List String) UploadFileParams)
    (st : BMState) (senv : SessionEnv) (env : UploadEnv) (raw : α) : ToolResult :=
  validateAndExecute parse (fun p => (uploadFileExecute st senv env p).1) raw

/-- The run-verification tool as dispatched. -/
def runVerificationTool {α : Type} (parse : α → Except (List String) RunVerificationParams)
    (st : BMState) (senv : SessionEnv) (env : RunVerificationEnv) (raw : α) : ToolResult :=
  validateAndExecute parse (fun p => (runVerificationExecute st senv env p).1) raw

/-- The natural-language tool as dispatched. -/
def naturalLanguageTool {α : Type} (parse : α → Except (List String) NLQueryParams)
    (raw : α) : ToolResult :=
  validateAndExecute parse (fun p => (nlExecute p).1) raw

/-! ## The OperationResult contract invariant (C2) -/

/-- The contract invariant: success means data present and error absent;
`success=false ⇔ error a non-empty message ∧ data absent`. -/
def resultInvariant (r : ToolResult) : Prop :=
  (r.success = true → r.data.isSome ∧ r.error = none) ∧
  (r.success = false → r.data = none ∧ ∃ m, r.error = some m ∧ m ≠ "")

/-- Is an event a `page.goto` navigation? -/
def isGotoEvent : Event → Bool
  | .goto _ => true
  | _ => false

/-- Is an event an interaction with the login form (typing into an
input or clicking submit)? -/
def isFormInteraction : Event → Bool
  | .typeText _ _ => true
  | .click _ => true
  | _ => false

/-! ## Concrete instances used by the claim theorems -/

/-- A login environment where the platform is reachable and every form
interaction succeeds. -/
def allOkLoginEnv : LoginEnv :=
  { statusBefore := false, waitLoginForm := .ok (), typeUsername := .ok ()
    typePassword := .ok (), submitLogin := .ok (), statusAfter := true }

/-- A session with no environment credentials configured. -/
def noCredsSessionEnv : SessionEnv :=
  { envUsername := none, envPassword := none, loginEnv := allOkLoginEnv }

/-- Browser initialized and landing page open, not yet authenticated. -/
def readyState : BMState := { hasPage := true, isLoggedIn := false }

/-- Browser initialized and already authenticated. -/
def authedState : BMState := { hasPage := true, isLoggedIn := true }

def okNavigateEnv : NavigateEnv :=
  { gotoPage := .ok (), stabilize := .ok ()
    pageUrl := "https://onlineeda.arcas-da.com/dashboard" }

def homeParams : NavigateParams := { action := .home, projectId := none }

/-- An upload environment where everything would succeed. -/
def okUploadEnv : UploadEnv :=
  { resolvePath := fun p => "/work/" ++ p, fileAccess := .ok ()
    gotoFilesPage := .ok (), findFileInput := .ok true
    doUpload := .ok (), waitUploadDone := .ok () }

/-- An upload environment whose local source file does not exist:
`fs.access` rejects. -/
def missingFileUploadEnv : UploadEnv :=
  { okUploadEnv with fileAccess := .error (.err "ENOENT: no such file or directory") }

def uploadParams1 : UploadFileParams :=
  { projectId := "proj_123", filePath := "rtl/cpu_core.v", fileType := some "verilog" }

/-- A page with no verification markers at all. -/
def emptyDom : PageDom :=
  { passIndicator := false, violationEls := []
    totalChecksText := none, checksPassedText := none
    checksFailedText := none, warningsText := none }

/-- A page whose `.total-checks` marker is present but holds
non-numeric text. -/
def naDom : PageDom := { emptyDom with totalChecksText := some "N/A" }

/-- Run-verification parameters with `options.timeout = 0` (schema
valid: `z.number()`). -/
def timeoutZeroParams : RunVerificationParams :=
  { projectId := "proj_123", verificationType := .formal
    options := some { timeout := some 0, depth := none, properties := none } }

/-- A platform where the run starts immediately and the completion
indicator appears only 200 s after the completion wait begins. -/
def lateCompleteEnv : RunVerificationEnv :=
  { gotoVerifyPage := .ok (), selectType := .ok (), typeTimeoutField := .ok ()
    typeDepthField := .ok (), clickRun := .ok (), runningAppearsAtMs := some 0
    completeAppearsAtMs := some 200000, evaluateResults := .ok (), dom := emptyDom }

/-- Run-verification parameters with `options.timeout = 1` (the spec's
own test scenario). -/
def timeoutOneParams : RunVerificationParams :=
  { projectId := "proj_123", verificationType := .formal
    options := some { timeout := some 1, depth := none, properties := none } }

/-- A platform where the "running" indicator never appears. -/
def neverRunsEnv : RunVerificationEnv :=
  { lateCompleteEnv with runningAppearsAtMs := none }

/-- A platform where the run starts but the completion indicator never
appears. -/
def neverCompletesEnv : RunVerificationEnv :=
  { lateCompleteEnv with completeAppearsAtMs := none }

/-- The score of an example under an abstract pair-valued score
function, as a rational number. -/
def scQ (f : Example → ℕ × ℕ) (ex : Example) : ℚ :=
  ((f ex).1 : ℚ) / ((f ex).2 : ℚ)

/-! ## Helper lemmas -/

lemma append_ne_empty_left (s t : String) (h : s ≠ "") : s ++ t ≠ "" := by
  cases s with | mk l =>
  cases t with | mk m =>
  intro hc
  apply h
  have h2 : l ++ m = ([] : List Char) := congrArg String.data hc
  have h3 : l = [] := (List.append_eq_nil.mp h2).1
  simp [h3]

/-- The session layer can only throw the "Browser not initialized" error; every
failure inside its `try` is folded into `.ok false`. -/
lemma login_fst_cases (st : BMState) (u p eu ep : Option String) (env : LoginEnv) :
    (login st u p eu ep env).1 = .error (.err "Browser not initialized") ∨
    ∃ b, (login st u p eu ep env).1 = .ok b := by
  unfold login
  by_cases hp : st.hasPage
  · simp only [hp, Bool.not_true, Bool.false_eq_true, if_false, if_true]
    by_cases hs : env.statusBefore
    · simp [hs]
    · simp only [hs, if_false]
      cases hu : jsOrStr u eu with
      | none => cases hpw : jsOrStr p ep <;> simp
      | some user =>
        cases hpw : jsOrStr p ep with
        | none => simp
        | some pass =>
          by_cases he : user == "" || pass == ""
          · simp [he]
          · simp only [he, if_false]
            cases env.waitLoginForm with
            | error e => simp
            | ok _ =>
              cases env.typeUsername with
              | error e => simp
              | ok _ =>
                cases env.typePassword with
                | error e => simp
                | ok _ =>
                  cases env.submitLogin with
                  | error e => simp
                  | ok _ => simp
  · simp [hp]

/-- The only exceptions that can leave `ensureLoggedIn` are the two
`Error`s raised by the session layer itself (both with fixed, non-empty
messages). -/
lemma ensureLoggedIn_error_cases (st : BMState) (eu ep : Option String)
    (env : LoginEnv) (e : JsErr)
    (h : (ensureLoggedIn st eu ep env).1 = .error e) :
    e = .err loginFailedMessage ∨ e = .err "Browser not initialized" := by
  unfold ensureLoggedIn at h
  by_cases hl : st.isLoggedIn
  · simp [hl] at h
  · simp only [hl, if_false] at h
    rcases hlog : login st none none eu ep env with ⟨o, tr, st'⟩
    rw [hlog] at h
    rcases login_fst_cases st none none eu ep env with hc | ⟨b, hb⟩
    · rw [hlog] at hc
      simp only at hc
      subst hc
      simp only at h
      exact Or.inr (Except.error.inj h).symm
    · rw [hlog] at hb
      simp only at hb
      subst hb
      cases b with
      | true => simp at h
      | false =>
          simp only at h
          exact Or.inl (Except.error.inj h).symm

lemma login_trace_no_goto (st : BMState) (u p eu ep : Option String) (env : LoginEnv) :
    ∀ ev ∈ (login st u p eu ep env).2.1, isGotoEvent ev = false := by
  unfold login
  by_cases hp : st.hasPage
  · simp only [hp, Bool.not_true, Bool.false_eq_true, if_false]
    by_cases hs : env.statusBefore
    · simp [hs, isGotoEvent]
    · simp only [hs, if_false]
      cases jsOrStr u eu with
      | none => cases jsOrStr p ep <;> simp [isGotoEvent]
      | some user =>
        cases jsOrStr p ep with
        | none => simp [isGotoEvent]
        | some pass =>
          by_cases he : user == "" || pass == ""
          · simp [he, isGotoEvent]
          · simp only [he, if_false]
            cases env.waitLoginForm with
            | error e => simp [isGotoEvent]
            | ok _ =>
              cases env.typeUsername with
              | error e => simp [isGotoEvent]
              | ok _ =>
                cases env.typePassword with
                | error e => simp [isGotoEvent]
                | ok _ =>
                  cases env.submitLogin with
                  | error e => simp [isGotoEvent]
                  | ok _ => simp [isGotoEvent]
  · simp [hp]

lemma ensureLoggedIn_trace_no_goto (st : BMState) (eu ep : Option String)
    (env : LoginEnv) :
    ∀ ev ∈ (ensureLoggedIn st eu ep env).2.1, isGotoEvent ev = false := by
  unfold ensureLoggedIn
  by_cases hl : st.isLoggedIn
  · simp [hl]
  · simp only [hl, if_false]
    rcases hlog : login st none none eu ep env with ⟨o, tr, st'⟩
    have htr := login_trace_no_goto st none none eu ep env
    rw [hlog] at htr
    cases o with
    | error e => simpa using htr
    | ok b => cases b <;> simpa using htr

/-- A failure result with a non-empty message satisfies the contract
invariant. -/
lemma invariant_fail (m : String) (hm : m ≠ "") :
    resultInvariant { success := false, error := some m } := by
  refine ⟨fun h => by simp at h, fun _ => ⟨rfl, m, rfl, hm⟩⟩

/-- A success result with data present and no error satisfies the
contract invariant. -/
lemma invariant_okData (r : ToolResult) (hs : r.success = true)
    (hd : r.data.isSome) (he : r.error = none) : resultInvariant r := by
  refine ⟨fun _ => ⟨hd, he⟩, fun hf => ?_⟩
  rw [hs] at hf
  cases hf

/-- Exhaustive outcome analysis for `NavigateTool.execute`: either the
`ensureLoggedIn` exception propagates unchanged, or a contract-abiding
result is returned. -/
lemma navigateExecute_fst (st : BMState) (senv : SessionEnv) (env : NavigateEnv)
    (p : NavigateParams) :
    (∃ e, (navigateExecute st senv env p).1 = .error e ∧
       (ensureLoggedIn st senv.envUsername senv.envPassword senv.loginEnv).1 = .error e) ∨
    (∃ r, (navigateExecute st senv env p).1 = .ok r ∧ resultInvariant r) := by
  unfold navigateExecute
  rcases hlog : ensureLoggedIn st senv.envUsername senv.envPassword senv.loginEnv
    with ⟨o, tr, st'⟩
  cases o with
  | error e => exact Or.inl ⟨e, rfl, rfl⟩
  | ok b =>
    right
    cases hp : st'.hasPage with
    | false =>
        exact ⟨{ success := false, error := some "Browser page not available" },
          by simp [hp], invariant_fail _ (by decide)⟩
    | true =>
      simp only [hp, Bool.not_true, Bool.false_eq_true, if_false]
      cases env.gotoPage with
      | error e =>
          exact ⟨_, rfl, invariant_fail _ (append_ne_empty_left "Navigation failed: " _ (by decide))⟩
      | ok _ =>
        cases env.stabilize with
        | error e =>
            exact ⟨_, rfl, invariant_fail _ (append_ne_empty_left "Navigation failed: " _ (by decide))⟩
        | ok _ => exact ⟨_, rfl, invariant_okData _ rfl rfl rfl⟩

lemma createProject_cases (env : ProjectEnv) (name ptype : String) :
    (∃ r, (createProject env name ptype).1 = .ok r ∧ resultInvariant r) ∨
    (∃ e, (createProject env name ptype).1 = .error e) := by
  unfold createProject
  cases env.createGoto with
  | error e => exact Or.inr ⟨e, rfl⟩
  | ok _ =>
    cases env.createWaitForm with
    | error e => exact Or.inr ⟨e, rfl⟩
    | ok _ =>
      cases env.createTypeName with
      | error e => exact Or.inr ⟨e, rfl⟩
      | ok _ =>
        cases env.createSelectType with
        | error e => exact Or.inr ⟨e, rfl⟩
        | ok _ =>
          cases env.createSubmit with
          | error e => exact Or.inr ⟨e, rfl⟩
          | ok _ => exact Or.inl ⟨_, rfl, invariant_okData _ rfl rfl rfl⟩

lemma openProject_cases (env : ProjectEnv) (projectId : String) :
    (∃ r, (openProject env projectId).1 = .ok r ∧ resultInvariant r) ∨
    (∃ e, (openProject env projectId).1 = .error e) := by
  unfold openProject
  cases env.openGoto with
  | error e => exact Or.inr ⟨e, rfl⟩
  | ok _ => exact Or.inl ⟨_, rfl, invariant_okData _ rfl rfl rfl⟩

lemma listProjects_cases (env : ProjectEnv) :
    (∃ r, (listProjects env).1 = .ok r ∧ resultInvariant r) ∨
    (∃ e, (listProjects env).1 = .error e) := by
  unfold listProjects
  cases env.listGoto with
  | error e => exact Or.inr ⟨e, rfl⟩
  | ok _ =>
    cases env.listEvaluate with
    | error e => exact Or.inr ⟨e, rfl⟩
    | ok projects => exact Or.inl ⟨_, rfl, invariant_okData _ rfl rfl rfl⟩

lemma deleteProject_cases (env : ProjectEnv) (projectId : String) :
    (∃ r, (deleteProject env projectId).1 = .ok r ∧ resultInvariant r) ∨
    (∃ e, (deleteProject env projectId).1 = .error e) := by
  unfold deleteProject
  cases env.deleteGoto with
  | error e => exact Or.inr ⟨e, rfl⟩
  | ok _ =>
    cases env.deleteClick with
    | error e => exact Or.inr ⟨e, rfl⟩
    | ok _ =>
      cases env.deleteWaitConfirm with
      | error e => exact Or.inr ⟨e, rfl⟩
      | ok _ =>
        cases env.deleteConfirm with
        | error e => exact Or.inr ⟨e, rfl⟩
        | ok _ => exact Or.inl ⟨_, rfl, invariant_okData _ rfl rfl rfl⟩

lemma projectSwitch_cases (env : ProjectEnv) (params : ProjectParams) :
    (∃ r, (projectSwitch env params).1 = .ok r ∧ resultInvariant r) ∨
    (∃ e, (projectSwitch env params).1 = .error e) := by
  unfold projectSwitch
  rcases params with ⟨action, pname, ptype, pid⟩
  cases action with
  | createA =>
    dsimp only
    split
    · exact Or.inl ⟨_, rfl, invariant_fail _ (by decide)⟩
    · exact createProject_cases env _ _
  | openA =>
    dsimp only
    split
    · exact Or.inl ⟨_, rfl, invariant_fail _ (by decide)⟩
    · exact openProject_cases env _
  | listA => exact listProjects_cases env
  | deleteA =>
    dsimp only
    split
    · exact Or.inl ⟨_, rfl, invariant_fail _ (by decide)⟩
    · exact deleteProject_cases env _

/-- Exhaustive outcome analysis for `ProjectTool.execute`. -/
lemma projectExecute_fst (st : BMState) (senv : SessionEnv) (env : ProjectEnv)
    (params : ProjectParams) :
    (∃ e, (projectExecute st senv env params).1 = .error e ∧
       (ensureLoggedIn st senv.envUsername senv.envPassword senv.loginEnv).1 = .error e) ∨
    (∃ r, (projectExecute st senv env params).1 = .ok r ∧ resultInvariant r) := by
  unfold projectExecute
  rcases hlog : ensureLoggedIn st senv.envUsername senv.envPassword senv.loginEnv
    with ⟨o, tr, st'⟩
  cases o with
  | error e => exact Or.inl ⟨e, rfl, rfl⟩
  | ok b =>
    right
    cases hp : st'.hasPage with
    | false =>
        exact ⟨{ success := false, error := some "Browser page not available" },
          by simp [hp], invariant_fail _ (by decide)⟩
    | true =>
      simp only [hp, Bool.not_true, Bool.false_eq_true, if_false]
      rcases hsw : projectSwitch env params with ⟨so, str⟩
      rcases projectSwitch_cases env params with ⟨r, hr, hinv⟩ | ⟨e, he⟩
      · rw [hsw] at hr
        simp only at hr
        subst hr
        exact ⟨r, rfl, hinv⟩
      · rw [hsw] at he
        simp only at he
        subst he
        exact ⟨_, rfl,
          invariant_fail _ (append_ne_empty_left "Project operation failed: " _ (by decide))⟩

/-- Exhaustive outcome analysis for `UploadFileTool.execute`. -/
lemma uploadFileExecute_fst (st : BMState) (senv : SessionEnv) (env : UploadEnv)
    (params : UploadFileParams) :
    (∃ e, (uploadFileExecute st senv env params).1 = .error e ∧
       (ensureLoggedIn st senv.envUsername senv.envPassword senv.loginEnv).1 = .error e) ∨
    (∃ r, (uploadFileExecute st senv env params).1 = .ok r ∧ resultInvariant r) := by
  unfold uploadFileExecute
  rcases hlog : ensureLoggedIn st senv.envUsername senv.envPassword senv.loginEnv
    with ⟨o, tr, st'⟩
  cases o with
  | error e => exact Or.inl ⟨e, rfl, rfl⟩
  | ok b =>
    right
    cases hp : st'.hasPage with
    | false =>
        exact ⟨{ success := false, error := some "Browser page not available" },
          by simp [hp], invariant_fail _ (by decide)⟩
    | true =>
      simp only [hp, Bool.not_true, Bool.false_eq_true, if_false]
      cases env.fileAccess with
      | error e =>
          exact ⟨_, rfl,
            invariant_fail _ (append_ne_empty_left "File upload failed: " _ (by decide))⟩
      | ok _ =>
        cases env.gotoFilesPage with
        | error e =>
            exact ⟨_, rfl,
              invariant_fail _ (append_ne_empty_left "File upload failed: " _ (by decide))⟩
        | ok _ =>
          cases env.findFileInput with
          | error e =>
              exact ⟨_, rfl,
                invariant_fail _ (append_ne_empty_left "File upload failed: " _ (by decide))⟩
          | ok found =>
            cases found with
            | false => exact ⟨_, rfl, invariant_fail _ (by decide)⟩
            | true =>
              cases env.doUpload with
              | error e =>
                  exact ⟨_, rfl,
                    invariant_fail _ (append_ne_empty_left "File upload failed: " _ (by decide))⟩
              | ok _ =>
                cases env.waitUploadDone with
                | error e =>
                    exact ⟨_, rfl,
                      invariant_fail _ (append_ne_empty_left "File upload failed: " _ (by decide))⟩
                | ok _ => exact ⟨_, rfl, invariant_okData _ rfl rfl rfl⟩

lemma configureOptions_cases (env : RunVerificationEnv)
    (options : Option VerificationOptions) :
    (configureOptions env options).1 = .ok () ∨
    (∃ e, (configureOptions env options).1 = .error e) := by
  unfold configureOptions
  cases options with
  | none => exact Or.inl rfl
  | some o =>
    by_cases ht : jsNumTruthy o.timeout
    · simp only [ht, if_true]
      cases env.typeTimeoutField with
      | error e => exact Or.inr ⟨e, rfl⟩
      | ok _ =>
        by_cases hd : jsNumTruthy o.depth
        · simp only [hd, if_true]
          cases env.typeDepthField with
          | error e => exact Or.inr ⟨e, rfl⟩
          | ok _ => exact Or.inl rfl
        · simp only [hd, Bool.false_eq_true, if_false]
          exact Or.inl trivial
    · simp only [ht, Bool.false_eq_true, if_false]
      by_cases hd : jsNumTruthy o.depth
      · simp only [hd, if_true]
        cases env.typeDepthField with
        | error e => exact Or.inr ⟨e, rfl⟩
        | ok _ => exact Or.inl rfl
      · simp only [hd, Bool.false_eq_true, if_false]
        exact Or.inl trivial

/-- Exhaustive outcome analysis for `RunVerificationTool.execute`. -/
lemma runVerificationExecute_fst (st : BMState) (senv : SessionEnv)
    (env : RunVerificationEnv) (params : RunVerificationParams) :
    (∃ e, (runVerificationExecute st senv env params).1 = .error e ∧
       (ensureLoggedIn st senv.envUsername senv.envPassword senv.loginEnv).1 = .error e) ∨
    (∃ r, (runVerificationExecute st senv env params).1 = .ok r ∧ resultInvariant r) := by
  unfold runVerificationExecute
  rcases hlog : ensureLoggedIn st senv.envUsername senv.envPassword senv.loginEnv
    with ⟨o, tr, st'⟩
  cases o with
  | error e => exact Or.inl ⟨e, rfl, rfl⟩
  | ok b =>
    right
    cases hp : st'.hasPage with
    | false =>
        exact ⟨{ success := false, error := some "Browser page not available" },
          by simp [hp], invariant_fail _ (by decide)⟩
    | true =>
      simp only [hp, Bool.not_true, Bool.false_eq_true, if_false]
      have hVF : ∀ e : JsErr, resultInvariant (verificationFailure e) := fun e =>
        invariant_fail _ (append_ne_empty_left "Verification failed: " _ (by decide))
      cases env.gotoVerifyPage with
      | error e => exact ⟨_, rfl, hVF e⟩
      | ok _ =>
        cases env.selectType with
        | error e => exact ⟨_, rfl, hVF e⟩
        | ok _ =>
          rcases hco : configureOptions env params.options with ⟨co, trc⟩
          rcases configureOptions_cases env params.options with hok | ⟨e, he⟩
          · rw [hco] at hok
            simp only at hok
            subst hok
            cases hw1 : waitForSelectorTimed env.runningAppearsAtMs 5000 with
            | error e =>
              cases env.clickRun with
              | error e2 => exact ⟨_, rfl, hVF e2⟩
              | ok _ => exact ⟨_, rfl, hVF e⟩
            | ok _ =>
              cases env.clickRun with
              | error e2 => exact ⟨_, rfl, hVF e2⟩
              | ok _ =>
                cases hw2 : waitForSelectorTimed env.completeAppearsAtMs
                    (completeTimeoutMs params.options) with
                | error e => exact ⟨_, rfl, hVF e⟩
                | ok _ =>
                  cases env.evaluateResults with
                  | error e => exact ⟨_, rfl, hVF e⟩
                  | ok _ => exact ⟨_, rfl, invariant_okData _ rfl rfl rfl⟩
          · rw [hco] at he
            simp only at he
            subst he
            exact ⟨_, rfl, hVF e⟩

/-- The natural-language tool's `execute` always resolves with a
success result carrying data. -/
lemma nlRespond_invariant (originalQuery query : String)
    (currentProject : Option String) :
    resultInvariant (nlRespond originalQuery query currentProject) := by
  unfold nlRespond
  generalize findBestExample examples query = fb
  cases fb with
  | some ex => exact invariant_okData _ rfl rfl rfl
  | none =>
    dsimp only
    split_ifs <;> exact invariant_okData _ rfl rfl rfl

lemma nlExecute_fst (params : NLQueryParams) :
    ∃ r, (nlExecute params).1 = .ok r ∧ resultInvariant r :=
  ⟨_, rfl, nlRespond_invariant _ _ _⟩

/-- A caught exception from a domain operation always has one of the
two fixed session-layer messages, hence a non-empty message. -/
lemma sessionError_nonempty {e : JsErr}
    (h : e = .err loginFailedMessage ∨ e = .err "Browser not initialized") :
    caughtMessage e ≠ "" := by
  rcases h with rfl | rfl <;> decide

/-- Generic invariant lemma for `validateAndExecute`: if the handler's
successes satisfy the contract and its exceptions carry non-empty
messages, every dispatched result satisfies the contract. -/
lemma vae_invariant {α V : Type} (parse : α → Except (List String) V)
    (exec : V → JsOutcome ToolResult)
    (hexec : ∀ v, (∀ r, exec v = .ok r → resultInvariant r) ∧
      (∀ e, exec v = .error e → caughtMessage e ≠ "")) (raw : α) :
    resultInvariant (validateAndExecute parse exec raw) := by
  unfold validateAndExecute
  cases hp : parse raw with
  | error msgs =>
      exact invariant_fail _ (append_ne_empty_left "Invalid parameters: " _ (by decide))
  | ok v =>
    show resultInvariant (match exec v with
      | .ok result => result
      | .error e => { success := false, error := some (caughtMessage e) })
    cases he : exec v with
    | ok r => exact (hexec v).1 r he
    | error e => exact invariant_fail _ ((hexec v).2 e he)

/-- If a session is already authenticated, `ensureLoggedIn` is a
no-op. -/
lemma ensureLoggedIn_of_loggedIn (st : BMState) (eu ep : Option String)
    (env : LoginEnv) (h : st.isLoggedIn = true) :
    ensureLoggedIn st eu ep env = (.ok true, [], st) := by
  simp [ensureLoggedIn, h]

/-- If both option-typing call sites would succeed, configuring options
never rejects. -/
lemma configureOptions_ok (env : RunVerificationEnv)
    (options : Option VerificationOptions)
    (hto : env.typeTimeoutField = .ok ()) (hde : env.typeDepthField = .ok ()) :
    (configureOptions env options).1 = .ok () := by
  unfold configureOptions
  cases options with
  | none => rfl
  | some o =>
    by_cases ht : jsNumTruthy o.timeout <;>
      by_cases hd : jsNumTruthy o.depth <;>
        simp [ht, hd, hto, hde]

/-- A handler that rejects makes `validateAndExecute` fold the
exception into a failure result with the caught message. -/
lemma vae_of_exec_error {α V : Type} (parse : α → Except (List String) V)
    (exec : V → JsOutcome ToolResult) (raw : α) (v : V) (e : JsErr)
    (hparse : parse raw = .ok v) (hex : exec v = .error e) :
    validateAndExecute parse exec raw =
      { success := false, error := some (caughtMessage e) } := by
  unfold validateAndExecute
  rw [hparse]
  show (match exec v with
    | .ok result => result
    | .error e => { success := false, error := some (caughtMessage e) }) = _
  rw [hex]

/-- A handler that resolves makes `validateAndExecute` pass its result
through unchanged. -/
lemma vae_of_exec_ok {α V : Type} (parse : α → Except (List String) V)
    (exec : V → JsOutcome ToolResult) (raw : α) (v : V) (r : ToolResult)
    (hparse : parse raw = .ok v) (hex : exec v = .ok r) :
    validateAndExecute parse exec raw = r := by
  unfold validateAndExecute
  rw [hparse]
  show (match exec v with
    | .ok result => result
    | .error e => { success := false, error := some (caughtMessage e) }) = r
  rw [hex]

/-- With an unreadable upload source (`fs.access` rejects), the upload
operation either rejects with a session error or resolves with a
failure result, and in all cases its trace contains no `page.goto`. -/
lemma uploadFileExecute_access_error (st : BMState) (senv : SessionEnv)
    (env : UploadEnv) (p : UploadFileParams) (aerr : JsErr)
    (h : env.fileAccess = .error aerr) :
    ((∃ e, (uploadFileExecute st senv env p).1 = .error e) ∨
      (∃ m, (uploadFileExecute st senv env p).1 =
        .ok { success := false, error := some m })) ∧
    (∀ ev ∈ (uploadFileExecute st senv env p).2, isGotoEvent ev = false) := by
  unfold uploadFileExecute
  rcases hlog : ensureLoggedIn st senv.envUsername senv.envPassword senv.loginEnv
    with ⟨o, tr, st'⟩
  have htr := ensureLoggedIn_trace_no_goto st senv.envUsername senv.envPassword senv.loginEnv
  rw [hlog] at htr
  cases o with
  | error e => exact ⟨Or.inl ⟨e, rfl⟩, by simpa using htr⟩
  | ok b =>
    cases hp : st'.hasPage with
    | false =>
        refine ⟨Or.inr ⟨"Browser page not available", by simp [hp]⟩, ?_⟩
        simpa [hp] using htr
    | true =>
      simp only [hp, Bool.not_true, Bool.false_eq_true, if_false]
      rw [h]
      refine ⟨Or.inr ⟨_, rfl⟩, ?_⟩
      intro ev hev
      simp only at hev
      rcases List.mem_append.mp hev with h1 | h2
      · exact htr ev h1
      · rw [List.mem_singleton.mp h2]
        rfl

/-! ### Lemmas for the Stage A similarity fold (C4) -/

lemma splitOnChar_ne_nil (sep : Char) (cs : List Char) : splitOnChar sep cs ≠ [] := by
  cases cs with
  | nil => simp [splitOnChar]
  | cons c rest =>
    unfold splitOnChar
    cases h : splitOnChar sep rest with
    | nil => simp
    | cons h t =>
      dsimp only
      split <;> simp

lemma jsSplitOnSpace_length_pos (s : String) : 0 < (jsSplitOnSpace s).length := by
  unfold jsSplitOnSpace
  rw [List.length_map]
  exact List.length_pos.mpr (splitOnChar_ne_nil ' ' s.data)

lemma scorePair_den_pos (query : String) (ex : Example) : 0 < (scorePair query ex).2 := by
  unfold scorePair
  exact lt_of_lt_of_le (jsSplitOnSpace_length_pos (jsToLower ex.query)) (le_max_right _ _)

/-- Cross-multiplied comparison agrees with the fraction comparison
when denominators are positive. -/
lemma fracLt_iff_div (p q : ℕ × ℕ) (hp : 0 < p.2) (hq : 0 < q.2) :
    fracLt p q ↔ (p.1 : ℚ) / (p.2 : ℚ) < (q.1 : ℚ) / (q.2 : ℚ) := by
  unfold fracLt
  rw [div_lt_div_iff₀ (by exact_mod_cast hp) (by exact_mod_cast hq)]
  exact_mod_cast Iff.rfl

/-- Characterization of the similarity fold: starting from a state with
positive denominator, folding `bestStep f` either leaves the state
untouched (and every element scored at most `max current 1/2`) or ends
at the first element strictly above every earlier score and `1/2`, with
no later element scoring above it. -/
lemma bestFold_spec (f : Example → ℕ × ℕ) (hden : ∀ ex, 0 < (f ex).2) :
    ∀ (l : List Example) (b : Option Example) (p : ℕ × ℕ), 0 < p.2 →
      (l.foldl (bestStep f) (b, p) = (b, p) ∧
        ∀ e ∈ l, scQ f e ≤ max ((p.1 : ℚ) / (p.2 : ℚ)) (1/2)) ∨
      (∃ pre ex post, l = pre ++ ex :: post ∧
        l.foldl (bestStep f) (b, p) = (some ex, f ex) ∧
        max ((p.1 : ℚ) / (p.2 : ℚ)) (1/2) < scQ f ex ∧
        (∀ e ∈ pre, scQ f e < scQ f ex) ∧
        (∀ e ∈ post, scQ f e ≤ scQ f ex)) := by
  intro l
  induction l with
  | nil => intro b p hp; left; simp
  | cons e t ih =>
    intro b p hp
    have hcond : (fracLt p (f e) ∧ fracLt (1, 2) (f e)) ↔
        max ((p.1 : ℚ) / (p.2 : ℚ)) (1/2) < scQ f e := by
      rw [max_lt_iff, fracLt_iff_div p (f e) hp (hden e),
        fracLt_iff_div (1, 2) (f e) (by norm_num) (hden e)]
      norm_num [scQ]
    by_cases hc : fracLt p (f e) ∧ fracLt (1, 2) (f e)
    · have hstep : List.foldl (bestStep f) (b, p) (e :: t) =
          List.foldl (bestStep f) (some e, f e) t := by
        simp [List.foldl_cons, bestStep, hc]
      rcases ih (some e) (f e) (hden e) with ⟨heq, hall⟩ | ⟨pre, ex, post, hdec, hfold, hmax, hpre, hpost⟩
      · right
        refine ⟨[], e, t, by simp, by rw [hstep, heq], hcond.mp hc, by simp, ?_⟩
        intro x hx
        have hhalf : (1 : ℚ)/2 < scQ f e := lt_of_le_of_lt (le_max_right _ _) (hcond.mp hc)
        have hx2 := hall x hx
        have heq2 : ((f e).1 : ℚ) / ((f e).2 : ℚ) = scQ f e := rfl
        rw [heq2, max_eq_left (le_of_lt hhalf)] at hx2
        exact hx2
      · right
        have hee : scQ f e < scQ f ex :=
          lt_of_le_of_lt (le_max_left _ _) hmax
        refine ⟨e :: pre, ex, post, by simp [hdec], by rw [hstep, hfold],
          lt_trans (hcond.mp hc) hee, ?_, hpost⟩
        intro x hx
        rcases List.mem_cons.mp hx with rfl | hx'
        · exact hee
        · exact hpre x hx'
    · have hstep : List.foldl (bestStep f) (b, p) (e :: t) =
          List.foldl (bestStep f) (b, p) t := by
        simp [List.foldl_cons, bestStep, hc]
      have hle : scQ f e ≤ max ((p.1 : ℚ) / (p.2 : ℚ)) (1/2) := by
        by_contra hgt
        exact hc (hcond.mpr (lt_of_not_le hgt))
      rcases ih b p hp with ⟨heq, hall⟩ | ⟨pre, ex, post, hdec, hfold, hmax, hpre, hpost⟩
      · left
        refine ⟨by rw [hstep, heq], ?_⟩
        intro x hx
        rcases List.mem_cons.mp hx with rfl | hx'
        · exact hle
        · exact hall x hx'
      · right
        refine ⟨e :: pre, ex, post, by simp [hdec], by rw [hstep, hfold], hmax, ?_, hpost⟩
        intro x hx
        rcases List.mem_cons.mp hx with rfl | hx'
        · exact lt_of_le_of_lt hle hmax
        · exact hpre x hx'

lemma findBestExample_eq_fold (corpus : List Example) (query : String) :
    findBestExample corpus query =
      (corpus.foldl (bestStep (scorePair query)) (none, (0, 1))).1 := rfl

lemma codeScore_eq_scQ (query : String) :
    codeScore query = scQ (scorePair query) := rfl

/-- A returned example of `findBestExample` means: it is in the corpus,
its score strictly exceeds `1/2`, no example scores higher, and every
earlier example scores strictly lower (first-in-corpus tie-breaking). -/
lemma findBestExample_some_spec (corpus : List Example) (query : String)
    (ex : Example) (h : findBestExample corpus query = some ex) :
    ex ∈ corpus ∧ (1:ℚ)/2 < codeScore query ex ∧
      (∀ e ∈ corpus, codeScore query e ≤ codeScore query ex) ∧
      (∃ pre post, corpus = pre ++ ex :: post ∧
        ∀ e ∈ pre, codeScore query e < codeScore query ex) := by
  rw [findBestExample_eq_fold] at h
  have hhalf : max ((((0, 1) : ℕ × ℕ).1 : ℚ) / (((0, 1) : ℕ × ℕ).2 : ℚ)) (1/2) =
      (1/2 : ℚ) := by norm_num
  rcases bestFold_spec (scorePair query) (scorePair_den_pos query) corpus none (0, 1)
      (by norm_num) with ⟨heq, _⟩ | ⟨pre, exA, post, hdec, hfold, hmax, hpre, hpost⟩
  · rw [heq] at h
    cases h
  · rw [hfold] at h
    have hex : exA = ex := by simpa using h
    rw [← hex, codeScore_eq_scQ]
    rw [hhalf] at hmax
    refine ⟨by rw [hdec]; simp, hmax, ?_, pre, post, hdec, hpre⟩
    intro e he
    rw [hdec] at he
    rcases List.mem_append.mp he with hl | hr
    · exact le_of_lt (hpre e hl)
    · rcases List.mem_cons.mp hr with rfl | hr'
      · exact le_refl _
      · exact hpost e hr'

/-- An empty result of `findBestExample` means no example scored
strictly above `1/2`. -/
lemma findBestExample_none_spec (corpus : List Example) (query : String)
    (h : findBestExample corpus query = none) :
    ∀ e ∈ corpus, codeScore query e ≤ (1:ℚ)/2 := by
  rw [findBestExample_eq_fold] at h
  have hhalf : max ((((0, 1) : ℕ × ℕ).1 : ℚ) / (((0, 1) : ℕ × ℕ).2 : ℚ)) (1/2) =
      (1/2 : ℚ) := by norm_num
  rcases bestFold_spec (scorePair query) (scorePair_den_pos query) corpus none (0, 1)
      (by norm_num) with ⟨heq, hall⟩ | ⟨pre, exA, post, _, hfold, _, _, _⟩
  · intro e he
    have h2 := hall e he
    rw [codeScore_eq_scQ]
    rwa [hhalf] at h2
  · rw [hfold] at h
    cases h

/-! ### Lemmas for the login interleaving model (C10) -/

/-- One step preserves `attemptsStarted + checkingCount ≤ 2`. -/
lemma concStep_inv (lo : Bool) (s : ConcState) (t : Bool)
    (h : s.attemptsStarted + checkingCount s ≤ 2) :
    (concStep lo s t).attemptsStarted + checkingCount (concStep lo s t) ≤ 2 := by
  cases t <;> cases hA : s.phaseA <;> cases hB : s.phaseB <;>
    simp_all [concStep, getPhase, setPhase, checkingCount] <;>
    split_ifs <;> simp_all <;> omega

/-- Any schedule preserves the attempt-count bound. -/
lemma runSched_inv (lo : Bool) (sched : List Bool) (s : ConcState)
    (h : s.attemptsStarted + checkingCount s ≤ 2) :
    (runSched lo sched s).attemptsStarted + checkingCount (runSched lo sched s) ≤ 2 := by
  induction sched generalizing s with
  | nil => exact h
  | cons t rest ih =>
      exact ih (concStep lo s t) (concStep_inv lo s t h)

/-! ## Claim theorems -/

/-- C1: for every registered tool (any schema `parse` and handler
`exec`) and every raw argument value, `validateAndExecute` always
returns an `OperationResult` (it is a total function into
`ToolResult`); when schema validation fails it returns
`success := false` with the per-field messages joined (behind the fixed
`Invalid parameters: ` prefix) and the handler is never consulted (the
result is the same for any other handler); an exception thrown by the
handler is caught and becomes `success := false` with the exception's
message (`Unknown error occurred` for a non-`Error` throw); a resolved
handler result is passed through. -/
theorem c1_dispatch_total_and_contained {α V : Type}
    (parse : α → Except (List String) V) (exec exec2 : V → JsOutcome ToolResult)
    (raw : α) :
    (∀ zodMessages, parse raw = .error zodMessages →
        validateAndExecute parse exec raw =
          { success := false,
            error := some ("Invalid parameters: " ++
              String.intercalate ", " zodMessages) } ∧
        validateAndExecute parse exec raw = validateAndExecute parse exec2 raw) ∧
    (∀ v, parse raw = .ok v →
        (∀ m, exec v = .error (.err m) →
            validateAndExecute parse exec raw = { success := false, error := some m }) ∧
        (exec v = .error .nonErr →
            validateAndExecute parse exec raw =
              { success := false, error := some "Unknown error occurred" }) ∧
        (∀ r, exec v = .ok r → validateAndExecute parse exec raw = r)) := by
  constructor
  · intro zodMessages hmsg
    constructor <;> simp [validateAndExecute, hmsg]
  · intro v hv
    refine ⟨fun m hm => ?_, fun hm => ?_, fun r hr => ?_⟩
    · exact vae_of_exec_error parse exec raw v (.err m) hv hm
    · exact vae_of_exec_error parse exec raw v .nonErr hv hm
    · unfold validateAndExecute
      rw [hv]
      show (match exec v with
        | .ok result => result
        | .error e => { success := false, error := some (caughtMessage e) }) = r
      rw [hr]

/-- C1 witness: the dispatch contract evaluated at concrete inputs: a
failing parse yields the joined validation message, and a throwing
handler yields its message. -/
theorem c1_dispatch_total_and_contained_witness :
    validateAndExecute (fun _ : Unit => (Except.error ["Required"] : Except (List String) Unit))
        (fun _ => .ok { success := true }) () =
      { success := false,
        error := some ("Invalid parameters: " ++ String.intercalate ", " ["Required"]) } ∧
    validateAndExecute (fun _ : Unit => (Except.ok () : Except (List String) Unit))
        (fun _ => .error (.err "boom")) () =
      { success := false, error := some "boom" } :=
  ⟨((c1_dispatch_total_and_contained
      (fun _ : Unit => (Except.error ["Required"] : Except (List String) Unit))
      (fun _ => .ok { success := true }) (fun _ => .ok { success := true }) ()).1
      ["Required"] rfl).1,
   ((c1_dispatch_total_and_contained
      (fun _ : Unit => (Except.ok () : Except (List String) Unit))
      (fun _ => .error (.err "boom")) (fun _ => .error (.err "boom")) ()).2
      () rfl).1 "boom" rfl⟩

/-- C2: every `OperationResult` produced by any of the five tools'
`validateAndExecute` — for every schema outcome, session state,
environment, and raw argument — satisfies the contract invariant:
`success = true` implies data present and error absent, and
`success = false` implies a non-empty error message and no data. -/
theorem c2_contract_invariant :
    (∀ (α : Type) (parse : α → Except (List String) NavigateParams)
        (st : BMState) (senv : SessionEnv) (env : NavigateEnv) (raw : α),
        resultInvariant (navigateTool parse st senv env raw)) ∧
    (∀ (α : Type) (parse : α → Except (List String) ProjectParams)
        (st : BMState) (senv : SessionEnv) (env : ProjectEnv) (raw : α),
        resultInvariant (projectTool parse st senv env raw)) ∧
    (∀ (α : Type) (parse : α → Except (List String) UploadFileParams)
        (st : BMState) (senv : SessionEnv) (env : UploadEnv) (raw : α),
        resultInvariant (uploadFileTool parse st senv env raw)) ∧
    (∀ (α : Type) (parse : α → Except (List String) RunVerificationParams)
        (st : BMState) (senv : SessionEnv) (env : RunVerificationEnv) (raw : α),
        resultInvariant (runVerificationTool parse st senv env raw)) ∧
    (∀ (α : Type) (parse : α → Except (List String) NLQueryParams) (raw : α),
        resultInvariant (naturalLanguageTool parse raw)) := by
  refine ⟨?_, ?_, ?_, ?_, ?_⟩
  · intro α parse st senv env raw
    refine vae_invariant parse _ (fun v => ⟨?_, ?_⟩) raw
    · intro r hr
      rcases navigateExecute_fst st senv env v with ⟨e, he, _⟩ | ⟨r', hr', hinv⟩
      · rw [he] at hr; cases hr
      · obtain rfl : r' = r := Except.ok.inj (hr'.symm.trans hr)
        exact hinv
    · intro e he
      rcases navigateExecute_fst st senv env v with ⟨e', he', hen⟩ | ⟨r', hr', _⟩
      · obtain rfl : e' = e := Except.error.inj (he'.symm.trans he)
        exact sessionError_nonempty (ensureLoggedIn_error_cases _ _ _ _ _ hen)
      · rw [hr'] at he; cases he
  · intro α parse st senv env raw
    refine vae_invariant parse _ (fun v => ⟨?_, ?_⟩) raw
    · intro r hr
      rcases projectExecute_fst st senv env v with ⟨e, he, _⟩ | ⟨r', hr', hinv⟩
      · rw [he] at hr; cases hr
      · obtain rfl : r' = r := Except.ok.inj (hr'.symm.trans hr)
        exact hinv
    · intro e he
      rcases projectExecute_fst st senv env v with ⟨e', he', hen⟩ | ⟨r', hr', _⟩
      · obtain rfl : e' = e := Except.error.inj (he'.symm.trans he)
        exact sessionError_nonempty (ensureLoggedIn_error_cases _ _ _ _ _ hen)
      · rw [hr'] at he; cases he
  · intro α parse st senv env raw
    refine vae_invariant parse _ (fun v => ⟨?_, ?_⟩) raw
    · intro r hr
      rcases uploadFileExecute_fst st senv env v with ⟨e, he, _⟩ | ⟨r', hr', hinv⟩
      · rw [he] at hr; cases hr
      · obtain rfl : r' = r := Except.ok.inj (hr'.symm.trans hr)
        exact hinv
    · intro e he
      rcases uploadFileExecute_fst st senv env v with ⟨e', he', hen⟩ | ⟨r', hr', _⟩
      · obtain rfl : e' = e := Except.error.inj (he'.symm.trans he)
        exact sessionError_nonempty (ensureLoggedIn_error_cases _ _ _ _ _ hen)
      · rw [hr'] at he; cases he
  · intro α parse st senv env raw
    refine vae_invariant parse _ (fun v => ⟨?_, ?_⟩) raw
    · intro r hr
      rcases runVerificationExecute_fst st senv env v with ⟨e, he, _⟩ | ⟨r', hr', hinv⟩
      · rw [he] at hr; cases hr
      · obtain rfl : r' = r := Except.ok.inj (hr'.symm.trans hr)
        exact hinv
    · intro e he
      rcases runVerificationExecute_fst st senv env v with ⟨e', he', hen⟩ | ⟨r', hr', _⟩
      · obtain rfl : e' = e := Except.error.inj (he'.symm.trans he)
        exact sessionError_nonempty (ensureLoggedIn_error_cases _ _ _ _ _ hen)
      · rw [hr'] at he; cases he
  · intro α parse raw
    refine vae_invariant parse _ (fun v => ⟨?_, ?_⟩) raw
    · intro r hr
      rcases nlExecute_fst v with ⟨r', hr', hinv⟩
      obtain rfl : r' = r := Except.ok.inj (hr'.symm.trans hr)
      exact hinv
    · intro e he
      rcases nlExecute_fst v with ⟨r', hr', _⟩
      rw [hr'] at he; cases he

/-- C3 counterexample: with the browser page open, no credentials
available, and an unauthenticated session, `NavigateTool.execute`
itself *rejects* with the `ensureLoggedIn` error — the session
exception is not caught inside `execute`, it propagates out of it to
the dispatch framework. -/
theorem c3_counterexample :
    (navigateExecute readyState noCredsSessionEnv okNavigateEnv homeParams).1 =
      .error (.err loginFailedMessage) := rfl

/-- C3 (amended): an exception raised while ensuring authentication
propagates *out* of each domain operation's `execute` unchanged
(`ensureLoggedIn` is awaited before the operation's `try` block), and
is then caught one level up by the dispatch framework's
`validateAndExecute`, which folds it into
`{success := false, error := message}`; it never escapes dispatch. -/
theorem c3_amended (st : BMState) (senv : SessionEnv) (e : JsErr)
    (h : (ensureLoggedIn st senv.envUsername senv.envPassword senv.loginEnv).1 = .error e) :
    (∀ (env : NavigateEnv) (p : NavigateParams),
        (navigateExecute st senv env p).1 = .error e ∧
        navigateTool Except.ok st senv env p =
          { success := false, error := some (caughtMessage e) }) ∧
    (∀ (env : ProjectEnv) (p : ProjectParams),
        (projectExecute st senv env p).1 = .error e ∧
        projectTool Except.ok st senv env p =
          { success := false, error := some (caughtMessage e) }) ∧
    (∀ (env : UploadEnv) (p : UploadFileParams),
        (uploadFileExecute st senv env p).1 = .error e ∧
        uploadFileTool Except.ok st senv env p =
          { success := false, error := some (caughtMessage e) }) ∧
    (∀ (env : RunVerificationEnv) (p : RunVerificationParams),
        (runVerificationExecute st senv env p).1 = .error e ∧
        runVerificationTool Except.ok st senv env p =
          { success := false, error := some (caughtMessage e) }) := by
  rcases hlog : ensureLoggedIn st senv.envUsername senv.envPassword senv.loginEnv
    with ⟨o, tr, st'⟩
  rw [hlog] at h
  dsimp only at h
  subst h
  refine ⟨fun env p => ?_, fun env p => ?_, fun env p => ?_, fun env p => ?_⟩
  · have hexec : (navigateExecute st senv env p).1 = .error e := by
      unfold navigateExecute
      rw [hlog]
    exact ⟨hexec, vae_of_exec_error _ _ p p e rfl hexec⟩
  · have hexec : (projectExecute st senv env p).1 = .error e := by
      unfold projectExecute
      rw [hlog]
    exact ⟨hexec, vae_of_exec_error _ _ p p e rfl hexec⟩
  · have hexec : (uploadFileExecute st senv env p).1 = .error e := by
      unfold uploadFileExecute
      rw [hlog]
    exact ⟨hexec, vae_of_exec_error _ _ p p e rfl hexec⟩
  · have hexec : (runVerificationExecute st senv env p).1 = .error e := by
      unfold runVerificationExecute
      rw [hlog]
    exact ⟨hexec, vae_of_exec_error _ _ p p e rfl hexec⟩

/-- C3 witness: the amended behavior at a concrete unauthenticated
session with no credentials: `execute` rejects with the login error,
and dispatch folds it into a failure result. -/
theorem c3_amended_witness :
    (navigateExecute readyState noCredsSessionEnv okNavigateEnv homeParams).1 =
        .error (.err loginFailedMessage) ∧
    navigateTool Except.ok readyState noCredsSessionEnv okNavigateEnv homeParams =
      { success := false, error := some (caughtMessage (.err loginFailedMessage)) } :=
  (c3_amended readyState noCredsSessionEnv (.err loginFailedMessage) rfl).1
    okNavigateEnv homeParams

/-- C4 counterexample: on the query `"go go documentation"` the
claim's set-based Stage A yields no acceptable example (the best
set-based score is `|{go,documentation} ∩ {go,to,the,documentation}| /
max(2,4) = 2/4`, not `> 0.5`), but the code's `findBestExample`
accepts and returns the navigation example — the code scores query
tokens with multiplicity against word-list lengths, not token sets. -/
theorem c4_counterexample :
    findBestExampleSpec examples "go go documentation" = none ∧
    specScorePair "go go documentation" "Go to the documentation" = (2, 4) ∧
    (findBestExample examples "go go documentation").map Example.tool =
      some "arcas_onlineeda_navigate" ∧
    scorePair "go go documentation"
      { query := "Go to the documentation",
        interpretation := "Navigate to documentation",
        tool := "arcas_onlineeda_navigate",
        params := .obj [("action", .s "documentation")] } = (3, 4) :=
  ⟨rfl, rfl, rfl, rfl⟩

/-- C4 (amended): Stage A scores each corpus example as
`(number of query tokens, counted with multiplicity, occurring among
the example's tokens) / max(query word-list length, example word-list
length)` — tokens from splitting the lowercased strings on single
spaces, duplicates kept; it selects the example with the highest score,
accepts only when the score strictly exceeds `0.5`, and on ties the
first example in corpus order wins; querying the exact corpus string
"I want to create a new formal verification project for my CPU design"
scores `13/13 = 1` and returns exactly that example's suggested tool
and parameters. -/
theorem c4_amended :
    (∀ (corpus : List Example) (query : String) (ex : Example),
        findBestExample corpus query = some ex →
          ex ∈ corpus ∧ (1:ℚ)/2 < codeScore query ex ∧
          (∀ e ∈ corpus, codeScore query e ≤ codeScore query ex) ∧
          (∃ pre post, corpus = pre ++ ex :: post ∧
            ∀ e ∈ pre, codeScore query e < codeScore query ex)) ∧
    (∀ (corpus : List Example) (query : String),
        findBestExample corpus query = none →
          ∀ e ∈ corpus, codeScore query e ≤ (1:ℚ)/2) ∧
    (∀ ex, examples.head? = some ex →
        scorePair "i want to create a new formal verification project for my cpu design"
          ex = (13, 13) ∧
        codeScore "i want to create a new formal verification project for my cpu design"
          ex = 1) ∧
    nlExecute { query := "I want to create a new formal verification project for my CPU design"
                context := none } =
      (.ok { success := true
             data := some (.nlMatchData "Create formal verification project"
               "arcas_onlineeda_project"
               (.obj [("action", .s "create"), ("projectType", .s "formal"),
                 ("projectName", .s "cpu_formal_verification")])
               "I want to create a new formal verification project for my CPU design"
               "high") }, []) := by
  refine ⟨findBestExample_some_spec, findBestExample_none_spec, ?_, rfl⟩
  intro ex hex
  have hx : ex = { query := "I want to create a new formal verification project for my CPU design"
                   interpretation := "Create formal verification project"
                   tool := "arcas_onlineeda_project"
                   params := .obj [("action", .s "create"), ("projectType", .s "formal"),
                     ("projectName", .s "cpu_formal_verification")] } := by
    have : examples.head? = some _ := rfl
    rw [this] at hex
    exact (Option.some.inj hex).symm
  subst hx
  refine ⟨rfl, ?_⟩
  rw [codeScore, show scorePair
    "i want to create a new formal verification project for my cpu design"
    { query := "I want to create a new formal verification project for my CPU design"
      interpretation := "Create formal verification project"
      tool := "arcas_onlineeda_project"
      params := .obj [("action", .s "create"), ("projectType", .s "formal"),
        ("projectName", .s "cpu_formal_verification")] } = (13, 13) from rfl]
  norm_num

/-- C4 witness: the amended Stage A characterization applied at the
exact corpus query: the first corpus example is returned, is in the
corpus, and scores above every example. -/
theorem c4_amended_witness :
    ∃ ex, findBestExample examples
        "i want to create a new formal verification project for my cpu design" = some ex ∧
      ex ∈ examples ∧
      (1:ℚ)/2 < codeScore
        "i want to create a new formal verification project for my cpu design" ex := by
  refine ⟨_, rfl, ?_⟩
  have h := c4_amended.1 examples
    "i want to create a new formal verification project for my cpu design" _ rfl
  exact ⟨h.1, h.2.1⟩

/-- C5 counterexample: a present `.total-checks` marker with
non-numeric text `"N/A"` yields `parseInt("N/A") = NaN` — not the `0`
the claim states. -/
theorem c5_counterexample :
    (extractVerificationResults naDom).statistics.totalChecks = none ∧
    ¬ (extractVerificationResults naDom).statistics.totalChecks = some 0 := by
  refine ⟨rfl, by decide⟩

/-- C5 (amended): extraction is total and lenient — `passed` mirrors
the pass-indicator presence (false when absent); violations are mapped
element-wise with safe placeholders for missing attributes (severity
defaulting to `"error"`); each statistic is
`parseInt(markerText || '0')`: `0` when the marker is missing or its
text is empty, the parsed leading integer otherwise, and `NaN` (not 0)
when the text has no leading integer; with no statistic markers the
statistics are `{0,0,0,0}` and `passed = false`. -/
theorem c5_amended :
    (∀ dom, (extractVerificationResults dom).passed = dom.passIndicator) ∧
    (∀ dom, (extractVerificationResults dom).violations =
        dom.violationEls.map extractViolation) ∧
    (∀ dom, (extractVerificationResults dom).statistics =
        { totalChecks := statOf dom.totalChecksText
          passed := statOf dom.checksPassedText
          failed := statOf dom.checksFailedText
          warnings := statOf dom.warningsText }) ∧
    (∀ el, el.severity = none → (extractViolation el).severity = "error") ∧
    (∀ el, el.type = none → (extractViolation el).type = "unknown") ∧
    (∀ el, el.message = none → (extractViolation el).message = "") ∧
    (∀ el, el.location = none → (extractViolation el).location = none) ∧
    statOf none = some 0 ∧ statOf (some "") = some 0 ∧
    statOf (some "42") = some 42 ∧ statOf (some "N/A") = none ∧
    extractVerificationResults emptyDom =
      { passed := false, violations := []
        statistics := { totalChecks := some 0, passed := some 0
                        failed := some 0, warnings := some 0 } } := by
  refine ⟨fun dom => rfl, fun dom => rfl, fun dom => rfl, ?_, ?_, ?_, ?_,
    rfl, rfl, by decide, rfl, rfl⟩
  · intro el h
    simp [extractViolation, h, jsStrOr]
  · intro el h
    simp [extractViolation, h, jsStrOr]
  · intro el h
    simp [extractViolation, h]
  · intro el h
    simp [extractViolation, h]

/-- C5 witness: the defaults evaluated at a violation element with no
attributes and at the marker-free page. -/
theorem c5_amended_witness :
    (extractViolation
      { type := none, message := none, location := none,
        severity := none }).severity = "error" ∧
    (extractVerificationResults emptyDom).passed = false :=
  ⟨c5_amended.2.2.2.1 _ rfl, (c5_amended.1 emptyDom).trans rfl⟩

/-- C6 counterexample: a run with `options.timeout = 0` (present, so
the claim's deadline would be 0 seconds) whose completion indicator
appears only after 200 s *succeeds* — the code's
`params.options?.timeout || 300` treats the present value `0` as
absent and waits up to 300 s. -/
theorem c6_counterexample :
    (runVerificationExecute authedState noCredsSessionEnv lateCompleteEnv
        timeoutZeroParams).1 =
      .ok { success := true
            data := some (.verificationData "proj_123" "formal"
              { passed := false, violations := []
                statistics := { totalChecks := some 0, passed := some 0
                                failed := some 0, warnings := some 0 } }) } := rfl

/-- C6 (amended): the orchestrator waits for the "running" indicator
with a fixed 5000 ms bound, and its absence within that window makes
the whole operation fail with `success := false` and no result data;
it then waits for the "complete" indicator bounded by
`(options.timeout || 300) * 1000` ms — i.e. `options.timeout` seconds
when present and nonzero, 300 s when absent **or zero** — and
exceeding that deadline likewise fails with no partial result. -/
theorem c6_amended (st : BMState) (senv : SessionEnv) (env : RunVerificationEnv)
    (params : RunVerificationParams)
    (hauth : st.isLoggedIn = true) (hpage : st.hasPage = true)
    (hgoto : env.gotoVerifyPage = .ok ()) (hsel : env.selectType = .ok ())
    (hto : env.typeTimeoutField = .ok ()) (hde : env.typeDepthField = .ok ())
    (hclick : env.clickRun = .ok ()) :
    (completeTimeoutMs params.options =
      (jsNumOr (params.options.bind (·.timeout)) 300) * 1000) ∧
    (params.options = none → completeTimeoutMs params.options = 300000) ∧
    (∀ e, (verificationFailure e).success = false ∧ (verificationFailure e).data = none) ∧
    (∀ e, waitForSelectorTimed env.runningAppearsAtMs 5000 = .error e →
        (runVerificationExecute st senv env params).1 = .ok (verificationFailure e)) ∧
    (∀ e, waitForSelectorTimed env.runningAppearsAtMs 5000 = .ok () →
        waitForSelectorTimed env.completeAppearsAtMs (completeTimeoutMs params.options) =
          .error e →
        (runVerificationExecute st senv env params).1 = .ok (verificationFailure e)) := by
  have hbase : ∀ e, (waitForSelectorTimed env.runningAppearsAtMs 5000 = .error e ∨
      (waitForSelectorTimed env.runningAppearsAtMs 5000 = .ok () ∧
        waitForSelectorTimed env.completeAppearsAtMs (completeTimeoutMs params.options) =
          .error e)) →
      (runVerificationExecute st senv env params).1 = .ok (verificationFailure e) := by
    intro e he
    unfold runVerificationExecute
    rw [ensureLoggedIn_of_loggedIn st senv.envUsername senv.envPassword senv.loginEnv hauth]
    simp only [hpage, Bool.not_true, Bool.false_eq_true, if_false]
    rw [hgoto, hsel]
    rcases hco : configureOptions env params.options with ⟨co, trc⟩
    have hok : co = .ok () := by
      have := configureOptions_ok env params.options hto hde
      rw [hco] at this
      exact this
    subst hok
    rw [hclick]
    rcases he with h1 | ⟨h1, h2⟩
    · rw [h1]
    · rw [h1, h2]
  refine ⟨rfl, fun h => by rw [h]; rfl, fun e => ⟨rfl, rfl⟩,
    fun e he => hbase e (Or.inl he), fun e h1 h2 => hbase e (Or.inr ⟨h1, h2⟩)⟩

/-- C6 witness: at concrete runs — a "running" indicator that never
appears fails the whole operation, and with `options.timeout = 1` a
completion indicator that never appears fails it (the claim's own
test scenario). -/
theorem c6_amended_witness :
    (runVerificationExecute authedState noCredsSessionEnv neverRunsEnv
        timeoutOneParams).1 =
      .ok (verificationFailure (.err "TimeoutError: waiting for selector failed")) ∧
    (runVerificationExecute authedState noCredsSessionEnv neverCompletesEnv
        timeoutOneParams).1 =
      .ok (verificationFailure (.err "TimeoutError: waiting for selector failed")) :=
  ⟨(c6_amended authedState noCredsSessionEnv neverRunsEnv timeoutOneParams
      rfl rfl rfl rfl rfl rfl rfl).2.2.2.1 _ rfl,
   (c6_amended authedState noCredsSessionEnv neverCompletesEnv timeoutOneParams
      rfl rfl rfl rfl rfl rfl rfl).2.2.2.2 _ rfl rfl⟩

/-- C7: when the local file path does not resolve to an existing
accessible file (`fs.access` rejects), the dispatched upload operation
returns `success := false`, the whole interaction trace contains no
`page.goto` whatsoever (so in particular none before the existence
check), and — for an authenticated session with an open page — the
trace is exactly the `fs.access` probe on the `path.resolve`d absolute
path: the check happens before any navigation is issued. -/
theorem c7_upload_no_navigation (st : BMState) (senv : SessionEnv)
    (env : UploadEnv) (p : UploadFileParams) (aerr : JsErr)
    (h : env.fileAccess = .error aerr) :
    (uploadFileTool Except.ok st senv env p).success = false ∧
    ((uploadFileExecute st senv env p).2.all (fun ev => !isGotoEvent ev)) = true ∧
    (st.isLoggedIn = true → st.hasPage = true →
      (uploadFileExecute st senv env p).2 =
        [.fsAccess (env.resolvePath p.filePath)]) := by
  obtain ⟨hres, htr⟩ := uploadFileExecute_access_error st senv env p aerr h
  refine ⟨?_, ?_, ?_⟩
  · rcases hres with ⟨e, he⟩ | ⟨m, hm⟩
    · rw [uploadFileTool, vae_of_exec_error _ _ p p e rfl he]
    · rw [uploadFileTool, vae_of_exec_ok _ _ p p _ rfl hm]
  · rw [List.all_eq_true]
    intro ev hev
    rw [Bool.not_eq_eq_eq_not, Bool.not_true]
    exact htr ev hev
  · intro hauth hpage
    unfold uploadFileExecute
    rw [ensureLoggedIn_of_loggedIn st senv.envUsername senv.envPassword senv.loginEnv hauth]
    simp only [hpage, Bool.not_true, Bool.false_eq_true, if_false]
    rw [h]
    simp

/-- C7 witness: uploading `rtl/cpu_core.v` when the file is missing,
from an authenticated session: the result is a failure, and the only
interaction is the existence check on the resolved absolute path. -/
theorem c7_upload_no_navigation_witness :
    (uploadFileTool Except.ok authedState noCredsSessionEnv missingFileUploadEnv
        uploadParams1).success = false ∧
    ((uploadFileExecute authedState noCredsSessionEnv missingFileUploadEnv
        uploadParams1).2.all (fun ev => !isGotoEvent ev)) = true ∧
    (uploadFileExecute authedState noCredsSessionEnv missingFileUploadEnv
        uploadParams1).2 = [.fsAccess "/work/rtl/cpu_core.v"] := by
  have h := c7_upload_no_navigation authedState noCredsSessionEnv missingFileUploadEnv
    uploadParams1 (.err "ENOENT: no such file or directory") rfl
  exact ⟨h.1, h.2.1, h.2.2 rfl rfl⟩

/-- C8 counterexample: the query `"upload verilog formal"` contains the
substrings `upload` and `verilog` and is rejected by Stage A, yet it is
*not* classified as a file operation: the earlier verification
predicate matches on the substring `formal`, so the suggestion is
`arcas_onlineeda_run_verification`, not the upload tool. -/
theorem c8_counterexample :
    suggestedToolOf (nlExecute { query := "upload verilog formal", context := none }) =
      some "arcas_onlineeda_run_verification" ∧
    ¬ suggestedToolOf (nlExecute { query := "upload verilog formal", context := none }) =
      some "arcas_onlineeda_upload_file" :=
  ⟨rfl, by decide⟩

/-- C8 (amended): a query containing `upload` and `verilog` that is
rejected by Stage A **and matches neither of the earlier category
predicates** (project-creation, verification) is classified as a file
operation and yields the upload suggestion with detected file type
`verilog`. -/
theorem c8_amended (q : String) (ctx : Option NLContext)
    (hA : findBestExample examples (jsToLower q) = none)
    (hpc : isProjectCreation (jsToLower q) = false)
    (hv : isVerification (jsToLower q) = false)
    (hup : jsIncludes (jsToLower q) "upload" = true)
    (hver : jsIncludes (jsToLower q) "verilog" = true) :
    suggestedToolOf (nlExecute { query := q, context := ctx }) =
      some "arcas_onlineeda_upload_file" ∧
    suggestedParamsOf (nlExecute { query := q, context := ctx }) =
      some (.obj [("projectId", .s "Required: Use current project ID"),
        ("filePath", .s "Required: Path to your design file"),
        ("fileType", .s "verilog")]) := by
  have hfile : isFileOperation (jsToLower q) = true := by
    simp [isFileOperation, containsAny, hup]
  have hdetect : detectFromTable (jsToLower q) fileTypeTable "verilog" = "verilog" := by
    simp [detectFromTable, fileTypeTable, containsAny, hver]
  have hresp : nlRespond q (jsToLower q) (ctx.bind (·.currentProject)) =
      suggestFileUpload (jsToLower q) := by
    unfold nlRespond
    rw [hA]
    simp [hpc, hv, hfile]
  constructor
  · show suggestedToolOf (.ok (nlRespond q (jsToLower q) (ctx.bind (·.currentProject))), []) = _
    rw [hresp]
    rfl
  · show suggestedParamsOf (.ok (nlRespond q (jsToLower q) (ctx.bind (·.currentProject))), []) = _
    rw [hresp]
    unfold suggestFileUpload
    rw [hdetect]
    rfl

/-- C8 witness: the amended classification at the concrete query
`"upload verilog"` (absent from the corpus, matching no earlier
category predicate). -/
theorem c8_amended_witness :
    suggestedToolOf (nlExecute { query := "upload verilog", context := none }) =
      some "arcas_onlineeda_upload_file" ∧
    suggestedParamsOf (nlExecute { query := "upload verilog", context := none }) =
      some (.obj [("projectId", .s "Required: Use current project ID"),
        ("filePath", .s "Required: Path to your design file"),
        ("fileType", .s "verilog")]) :=
  c8_amended "upload verilog" none rfl rfl rfl rfl rfl

/-- C9 counterexample: with a call-supplied (but empty) username and a
non-empty call-supplied password, the environment username is the one
actually typed into the login form — `username ||
process.env.ONLINEEDA_USERNAME` falls back on the empty string, so
environment values are not used "only when the corresponding call
argument is absent". -/
theorem c9_counterexample :
    ((login readyState (some "") (some "secret") (some "envuser") (some "envpass")
        allOkLoginEnv).2.1.contains (Event.typeText userInputSelector "envuser")) = true := by
  decide

/-- C9 (amended): non-empty call-supplied credentials take precedence
over environment values; the environment value is used when the call
argument is absent **or empty** (JavaScript `||`).  When the page
exists, the remote session is not already logged in, and the combined
credentials are missing or empty on either side, `login` returns
`false` — without touching the login form (its trace is just the
status probe) and without raising. -/
theorem c9_amended (st : BMState) (username password envUsername envPassword : Option String)
    (env : LoginEnv) (hpage : st.hasPage = true) (hstatus : env.statusBefore = false) :
    ((jsTruthy username = true → jsOrStr username envUsername = username) ∧
     (username = none → jsOrStr username envUsername = envUsername) ∧
     (jsTruthy password = true → jsOrStr password envPassword = password) ∧
     (password = none → jsOrStr password envPassword = envPassword)) ∧
    ((jsTruthy (jsOrStr username envUsername) = false ∨
        jsTruthy (jsOrStr password envPassword) = false) →
      login st username password envUsername envPassword env =
        (.ok false, [.queryRemote loginStatusSelector], st)) := by
  constructor
  · refine ⟨fun h => ?_, fun h => ?_, fun h => ?_, fun h => ?_⟩
    · simp [jsOrStr, h]
    · simp [jsOrStr, h, jsTruthy]
    · simp [jsOrStr, h]
    · simp [jsOrStr, h, jsTruthy]
  · intro hcred
    unfold login
    rw [hpage]
    simp only [Bool.not_true, Bool.false_eq_true, if_false, hstatus]
    rcases hu : jsOrStr username envUsername with _ | user
    · rcases hpw : jsOrStr password envPassword with _ | pass <;> rfl
    · rcases hpw : jsOrStr password envPassword with _ | pass
      · rfl
      · have hempty : (user == "" || pass == "") = true := by
          rcases hcred with hc | hc
          · rw [hu] at hc
            simp [jsTruthy] at hc
            simp [hc]
          · rw [hpw] at hc
            simp [jsTruthy] at hc
            simp [hc]
        simp [hempty]

/-- C9 witness: with no credentials from either source, `login`
returns `false` after only the status probe. -/
theorem c9_amended_witness :
    login readyState none none none none allOkLoginEnv =
      (.ok false, [.queryRemote loginStatusSelector], readyState) :=
  (c9_amended readyState none none none none allOkLoginEnv rfl rfl).2 (Or.inl rfl)

/-- C10 counterexample: under the interleaved schedule where both
callers run their synchronous `isLoggedIn` check before either login
completes, **two** login attempts are started (the claim says exactly
one), even though both callers end up observing a successful
outcome. -/
theorem c10_counterexample :
    (runSched true [false, true, false, true] concInit).attemptsStarted = 2 ∧
    getPhase (runSched true [false, true, false, true] concInit) false = .doneCall true ∧
    getPhase (runSched true [false, true, false, true] concInit) true = .doneCall true := by
  decide

/-- C10 (amended): login is not single-flight — there is no in-flight
guard, so each concurrent `ensureAuthenticated` caller that observes
`isLoggedIn = false` starts its own `login()` attempt: under any
schedule at most two attempts start; a second caller whose check runs
only after the first attempt completed successfully starts none and
observes success; and the fully interleaved schedule does start two
attempts. -/
theorem c10_amended :
    (∀ sched : List Bool, (runSched true sched concInit).attemptsStarted ≤ 2) ∧
    ((runSched true [false, false, true, true] concInit).attemptsStarted = 1 ∧
      getPhase (runSched true [false, false, true, true] concInit) false = .doneCall true ∧
      getPhase (runSched true [false, false, true, true] concInit) true = .doneCall true) ∧
    (runSched true [false, true, false, true] concInit).attemptsStarted = 2 := by
  refine ⟨fun sched => ?_, by decide, by decide⟩
  have h := runSched_inv true sched concInit (by decide)
  omega

end ArcasOnlineEda
